import Mathlib

/-!
# Courses and semesters REST API: controllers, validation middleware, routes

A shallow embedding of `controllers/course.js`, `controllers/semester.js`,
`middleware/validation.js` and the write routes of `routes/course.js`.

* JavaScript values are the type `Val`.
* The MongoDB driver is an interface `Mongo σ` over an arbitrary store state `σ`;
  every driver call either returns a result or throws a JavaScript value.
* A handler run yields the responses written to `res`, the value the handler
  threw to its caller (if any), the final store state and the trace of calls
  made on the collaborators.
* `memory` is an instance of the driver interface over a document store
  modelled from the specification.
-/

namespace CourseApi

/-! ## JavaScript values -/

/-- Length of a JavaScript string: its number of UTF-16 code units. -/
def jsLength (s : String) : Nat :=
  (s.data.map (fun c => if c.toNat < 65536 then 1 else 2)).sum

/-- JavaScript values that reach this program: JSON data, `undefined`, the
non-finite numbers and driver `ObjectId` objects. Finite numbers are carried
exactly as rationals (every finite double is one). An object is its list of
own properties in insertion order. -/
inductive Val where
  | undefined
  | null
  | bool (b : Bool)
  | num (q : ℚ)
  | nan
  | inf (negative : Bool)
  | str (s : String)
  | oid (hex : String)
  | arr (items : List Val)
  | obj (props : List (String × Val))

namespace Val

instance : Inhabited Val := ⟨Val.undefined⟩

/-- ToBoolean: `undefined`, `null`, `false`, `0`, `NaN` and `''` are falsy,
everything else (every object and array included) is truthy. -/
def truthy : Val → Bool
  | undefined => false
  | null => false
  | bool b => b
  | num q => decide (q ≠ 0)
  | nan => false
  | inf _ => true
  | str s => decide (s ≠ "")
  | oid _ => true
  | arr _ => true
  | obj _ => true

/-- The JavaScript operator `a || b`. -/
def or (a b : Val) : Val := if a.truthy then a else b

/-- The `TypeError` V8 throws for a property read on `undefined` or `null`. -/
def typeError (base key : String) : Val :=
  obj [("message", str ("Cannot read properties of " ++ base ++ " (reading '" ++ key ++ "')"))]

/-- Property read `v.key` for the property names this program reads
(`message`, `courseName`, `year`, ...), none of which is defined on a built-in
prototype: an own property of an object, `undefined` on any other value, and a
thrown `TypeError` on `undefined` and `null`. -/
def get (v : Val) (key : String) : Except Val Val :=
  match v with
  | undefined => .error (typeError "undefined" key)
  | null => .error (typeError "null" key)
  | obj props => .ok ((props.lookup key).getD undefined)
  | _ => .ok undefined

/-- The value found under `key`: an own property of an object, `undefined`
when the key is absent or the value is not an object. -/
def field (v : Val) (key : String) : Val :=
  match v with
  | obj props => (props.lookup key).getD undefined
  | _ => undefined

/-- A string whose length lies between `lo` and `hi`. -/
def isStringOf (lo hi : Nat) : Val → Bool
  | str s => decide (lo ≤ jsLength s) && decide (jsLength s ≤ hi)
  | _ => false

/-- A number that is an integer between `lo` and `hi`. -/
def isIntegerOf (lo hi : ℤ) : Val → Bool
  | num q => q.isInt && decide ((lo : ℚ) ≤ q) && decide (q ≤ (hi : ℚ))
  | _ => false

/-- The object literal `{ message: m }`. -/
def message (m : Val) : Val := obj [("message", m)]

end Val

/-! ## Responses and handler runs -/

/-- What a handler hands to `res`: `.json(v)` or `.send()` with no argument. -/
inductive Body where
  | json (v : Val)
  | empty

/-- One `res.status(code)` followed by `.json(..)` or `.send()`. -/
structure Response where
  status : Nat
  body : Body

/-- Calls a request makes on its collaborators, in program order. -/
inductive Event where
  | controller (name : String)
  | getDatabase
  | find (collection : String) (filterId : Option Val)
  | findOne (collection : String) (filterId : Val)
  | insertOne (collection : String) (doc : Val)
  | replaceOne (collection : String) (filterId : Val) (doc : Val)
  | deleteOne (collection : String) (filterId : Val)

/-- The observable result of running a handler. -/
structure Run (σ : Type) where
  responses : List Response
  thrown : Option Val
  state : σ
  trace : List Event

/-- An Express request, as far as the handlers read it: `req.params.id` (a
string, set by the router from the path) and `req.body`. -/
structure Request where
  id : String
  body : Val

/-! ## The driver interface -/

/-- Result of `insertOne`. -/
structure InsertOneResult where
  acknowledged : Bool
  insertedId : Val

/-- Result of `replaceOne`. -/
structure UpdateResult where
  acknowledged : Bool
  matchedCount : Int
  modifiedCount : Int

/-- Result of `deleteOne`. -/
structure DeleteResult where
  acknowledged : Bool
  deletedCount : Int

/-- The insert result as the JavaScript object handed to `res.json`. -/
def InsertOneResult.toVal (r : InsertOneResult) : Val :=
  .obj [("acknowledged", .bool r.acknowledged), ("insertedId", r.insertedId)]

/-- Behaviour of `mongodb` (the `ObjectId` constructor and the collection
operations) and of `db/connect.getDatabase` over a store state `σ`. Each call
returns its result or throws a value; collection operations also return the
store state they leave behind. `find` stands for `find(filter).toArray()`. -/
structure Mongo (σ : Type) where
  newObjectId : String → Except Val Val
  getDatabase : σ → Except Val Unit
  find : String → Option Val → σ → Except Val (List Val) × σ
  findOne : String → Val → σ → Except Val Val × σ
  insertOne : String → Val → σ → Except Val InsertOneResult × σ
  replaceOne : String → Val → Val → σ → Except Val UpdateResult × σ
  deleteOne : String → Val → σ → Except Val DeleteResult × σ

/-- The run wrote exactly one response, with the given status and body, and
returned normally. -/
def Run.answers {σ : Type} (r : Run σ) (status : Nat) (body : Body) : Prop :=
  r.responses = [⟨status, body⟩] ∧ r.thrown = none

/-- The body `{ message: m }` where `m` is the error's own message `em` when it
is truthy (present and not empty) and the fallback phrase otherwise. -/
def errorReply (fallback : String) (em : Val) : Body :=
  .json (.obj [("message", if em.truthy then em else .str fallback)])

/-- One response and a normal return. -/
def respond {σ : Type} (status : Nat) (body : Body) (s : σ) (tr : List Event) : Run σ :=
  { responses := [⟨status, body⟩], thrown := none, state := s, trace := tr }

/-- The `catch (err)` block shared by all ten handlers:
`res.status(500).json({ message: err.message || fallback })`. Reading
`err.message` throws when `err` is `undefined` or `null`, and that error
leaves the handler. -/
def catchAll {σ : Type} (fallback : String) (err : Val) (s : σ) (tr : List Event) : Run σ :=
  match err.get "message" with
  | .error e => { responses := [], thrown := some e, state := s, trace := tr }
  | .ok m => respond 500 (.json (Val.message (m.or (.str fallback)))) s tr

/-! ## controllers/course.js -/

namespace Course

/-- The object literal built by `createCourse` and `updateCourse` from
`req.body`; each property read can throw. -/
def courseOf (body : Val) : Except Val Val := do
  let courseName ← body.get "courseName"
  let courseCode ← body.get "courseCode"
  let credits ← body.get "credits"
  let department ← body.get "department"
  let description ← body.get "description"
  let prerequisites ← body.get "prerequisites"
  pure (.obj [("courseName", courseName), ("courseCode", courseCode),
    ("credits", credits), ("department", department),
    ("description", description),
    ("prerequisites", prerequisites.or (.arr []))])

/-- `getAll` of the course controller. -/
def getAll {σ : Type} (m : Mongo σ) (_req : Request) (s : σ) : Run σ :=
  match m.getDatabase s with
  | .error err => catchAll "Error retrieving courses" err s [.getDatabase]
  | .ok _ =>
    match m.find "courses" none s with
    | (.error err, s1) =>
      catchAll "Error retrieving courses" err s1 [.getDatabase, .find "courses" none]
    | (.ok courses, s1) =>
      respond 200 (.json (.arr courses)) s1 [.getDatabase, .find "courses" none]

/-- `getSingle` of the course controller. -/
def getSingle {σ : Type} (m : Mongo σ) (req : Request) (s : σ) : Run σ :=
  match m.newObjectId req.id with
  | .error err => catchAll "Error retrieving course" err s []
  | .ok courseId =>
    match m.getDatabase s with
    | .error err => catchAll "Error retrieving course" err s [.getDatabase]
    | .ok _ =>
      match m.find "courses" (some courseId) s with
      | (.error err, s1) =>
        catchAll "Error retrieving course" err s1
          [.getDatabase, .find "courses" (some courseId)]
      | (.ok (first :: _), s1) =>
        respond 200 (.json first) s1 [.getDatabase, .find "courses" (some courseId)]
      | (.ok [], s1) =>
        respond 404 (.json (Val.message (.str "Course not found"))) s1
          [.getDatabase, .find "courses" (some courseId)]

/-- `createCourse` of the course controller. -/
def createCourse {σ : Type} (m : Mongo σ) (req : Request) (s : σ) : Run σ :=
  match courseOf req.body with
  | .error err => catchAll "Error creating course" err s []
  | .ok course =>
    match m.getDatabase s with
    | .error err => catchAll "Error creating course" err s [.getDatabase]
    | .ok _ =>
      match m.insertOne "courses" course s with
      | (.error err, s1) =>
        catchAll "Error creating course" err s1 [.getDatabase, .insertOne "courses" course]
      | (.ok response, s1) =>
        if response.acknowledged then
          respond 201 (.json response.toVal) s1 [.getDatabase, .insertOne "courses" course]
        else
          respond 500 (.json (Val.message (.str "Failed to create course"))) s1
            [.getDatabase, .insertOne "courses" course]

/-- `updateCourse` of the course controller. -/
def updateCourse {σ : Type} (m : Mongo σ) (req : Request) (s : σ) : Run σ :=
  match m.newObjectId req.id with
  | .error err => catchAll "Error updating course" err s []
  | .ok courseId =>
    match courseOf req.body with
    | .error err => catchAll "Error updating course" err s []
    | .ok course =>
      match m.getDatabase s with
      | .error err => catchAll "Error updating course" err s [.getDatabase]
      | .ok _ =>
        match m.replaceOne "courses" courseId course s with
        | (.error err, s1) =>
          catchAll "Error updating course" err s1
            [.getDatabase, .replaceOne "courses" courseId course]
        | (.ok response, s1) =>
          if response.modifiedCount > 0 then
            respond 204 .empty s1 [.getDatabase, .replaceOne "courses" courseId course]
          else
            respond 404 (.json (Val.message (.str "Course not found"))) s1
              [.getDatabase, .replaceOne "courses" courseId course]

/-- `deleteCourse` of the course controller. -/
def deleteCourse {σ : Type} (m : Mongo σ) (req : Request) (s : σ) : Run σ :=
  match m.newObjectId req.id with
  | .error err => catchAll "Error deleting course" err s []
  | .ok courseId =>
    match m.getDatabase s with
    | .error err => catchAll "Error deleting course" err s [.getDatabase]
    | .ok _ =>
      match m.deleteOne "courses" courseId s with
      | (.error err, s1) =>
        catchAll "Error deleting course" err s1 [.getDatabase, .deleteOne "courses" courseId]
      | (.ok response, s1) =>
        if response.deletedCount > 0 then
          respond 200 (.json (Val.message (.str "Course deleted successfully"))) s1
            [.getDatabase, .deleteOne "courses" courseId]
        else
          respond 404 (.json (Val.message (.str "Course not found"))) s1
            [.getDatabase, .deleteOne "courses" courseId]

end Course

/-! ## controllers/semester.js -/

namespace Semester

/-- The object literal built by `createSemester` and `updateSemester` from
`req.body`; each property read can throw. -/
def semesterOf (body : Val) : Except Val Val := do
  let year ← body.get "year"
  let semesterSeason ← body.get "semesterSeason"
  let semesterStart ← body.get "semesterStart"
  let semesterEnd ← body.get "semesterEnd"
  pure (.obj [("year", year), ("semesterSeason", semesterSeason),
    ("semesterStart", semesterStart), ("semesterEnd", semesterEnd)])

/-- `getAll` of the semester controller. -/
def getAll {σ : Type} (m : Mongo σ) (_req : Request) (s : σ) : Run σ :=
  match m.getDatabase s with
  | .error err => catchAll "Error retrieving semesters" err s [.getDatabase]
  | .ok _ =>
    match m.find "semester" none s with
    | (.error err, s1) =>
      catchAll "Error retrieving semesters" err s1 [.getDatabase, .find "semester" none]
    | (.ok semesters, s1) =>
      respond 200 (.json (.arr semesters)) s1 [.getDatabase, .find "semester" none]

/-- `getSingle` of the semester controller. -/
def getSingle {σ : Type} (m : Mongo σ) (req : Request) (s : σ) : Run σ :=
  match m.newObjectId req.id with
  | .error err => catchAll "Error retrieving semester" err s []
  | .ok semesterId =>
    match m.getDatabase s with
    | .error err => catchAll "Error retrieving semester" err s [.getDatabase]
    | .ok _ =>
      match m.findOne "semester" semesterId s with
      | (.error err, s1) =>
        catchAll "Error retrieving semester" err s1
          [.getDatabase, .findOne "semester" semesterId]
      | (.ok semester, s1) =>
        if semester.truthy then
          respond 200 (.json semester) s1 [.getDatabase, .findOne "semester" semesterId]
        else
          respond 404 (.json (Val.message (.str "Semester not found"))) s1
            [.getDatabase, .findOne "semester" semesterId]

/-- `createSemester` of the semester controller. -/
def createSemester {σ : Type} (m : Mongo σ) (req : Request) (s : σ) : Run σ :=
  match semesterOf req.body with
  | .error err => catchAll "Error creating semester" err s []
  | .ok semester =>
    match m.getDatabase s with
    | .error err => catchAll "Error creating semester" err s [.getDatabase]
    | .ok _ =>
      match m.insertOne "semester" semester s with
      | (.error err, s1) =>
        catchAll "Error creating semester" err s1
          [.getDatabase, .insertOne "semester" semester]
      | (.ok response, s1) =>
        if response.acknowledged then
          respond 201 (.json response.toVal) s1 [.getDatabase, .insertOne "semester" semester]
        else
          respond 500 (.json (Val.message (.str "Failed to create semester"))) s1
            [.getDatabase, .insertOne "semester" semester]

/-- `updateSemester` of the semester controller. -/
def updateSemester {σ : Type} (m : Mongo σ) (req : Request) (s : σ) : Run σ :=
  match m.newObjectId req.id with
  | .error err => catchAll "Error updating semester" err s []
  | .ok semesterId =>
    match semesterOf req.body with
    | .error err => catchAll "Error updating semester" err s []
    | .ok semester =>
      match m.getDatabase s with
      | .error err => catchAll "Error updating semester" err s [.getDatabase]
      | .ok _ =>
        match m.replaceOne "semester" semesterId semester s with
        | (.error err, s1) =>
          catchAll "Error updating semester" err s1
            [.getDatabase, .replaceOne "semester" semesterId semester]
        | (.ok response, s1) =>
          if response.modifiedCount > 0 then
            respond 204 .empty s1 [.getDatabase, .replaceOne "semester" semesterId semester]
          else
            respond 404 (.json (Val.message (.str "Semester not found"))) s1
              [.getDatabase, .replaceOne "semester" semesterId semester]

/-- `deleteSemester` of the semester controller. -/
def deleteSemester {σ : Type} (m : Mongo σ) (req : Request) (s : σ) : Run σ :=
  match m.newObjectId req.id with
  | .error err => catchAll "Error deleting semester" err s []
  | .ok semesterId =>
    match m.getDatabase s with
    | .error err => catchAll "Error deleting semester" err s [.getDatabase]
    | .ok _ =>
      match m.deleteOne "semester" semesterId s with
      | (.error err, s1) =>
        catchAll "Error deleting semester" err s1
          [.getDatabase, .deleteOne "semester" semesterId]
      | (.ok response, s1) =>
        if response.deletedCount > 0 then
          respond 200 (.json (Val.message (.str "Semester deleted successfully"))) s1
            [.getDatabase, .deleteOne "semester" semesterId]
        else
          respond 404 (.json (Val.message (.str "Semester not found"))) s1
            [.getDatabase, .deleteOne "semester" semesterId]

end Semester

/-! ## Concrete drivers, in the manner of the test suite's mocks -/

/-- Hexadecimal digit, either case. -/
def isHexDigit (c : Char) : Bool :=
  (48 ≤ c.toNat && c.toNat ≤ 57) || (65 ≤ c.toNat && c.toNat ≤ 70) ||
    (97 ≤ c.toNat && c.toNat ≤ 102)

/-- The error `new ObjectId(string)` throws (text of bson 6). -/
def bsonError : Val :=
  .obj [("message",
    .str "input must be a 24 character hex string, 12 byte Uint8Array, or an integer")]

/-- The string case of the `ObjectId` constructor of bson 6: a string of 24
hexadecimal digits is accepted, every other string throws. -/
def objectIdOfString (s : String) : Except Val Val :=
  if jsLength s = 24 ∧ s.data.all isHexDigit then .ok (.oid (String.mk (s.data.map Char.toLower)))
  else .error bsonError

/-- The canned results of a scripted driver. -/
structure Script where
  found : List Val
  one : Val
  inserted : InsertOneResult
  replaced : UpdateResult
  deleted : DeleteResult

/-- A driver whose handle is available and whose collection operations return
the scripted results, whatever their arguments. -/
def scripted (sc : Script) : Mongo Unit where
  newObjectId := objectIdOfString
  getDatabase := fun _ => .ok ()
  find := fun _ _ s => (.ok sc.found, s)
  findOne := fun _ _ s => (.ok sc.one, s)
  insertOne := fun _ _ s => (.ok sc.inserted, s)
  replaceOne := fun _ _ _ s => (.ok sc.replaced, s)
  deleteOne := fun _ _ s => (.ok sc.deleted, s)

/-- A driver whose `getDatabase` throws `err` (the tests'
`mockImplementation(() => { throw new Error('DB error') })`). -/
def noDatabase (err : Val) : Mongo Unit where
  newObjectId := objectIdOfString
  getDatabase := fun _ => .error err
  find := fun _ _ s => (.error err, s)
  findOne := fun _ _ s => (.error err, s)
  insertOne := fun _ _ s => (.error err, s)
  replaceOne := fun _ _ _ s => (.error err, s)
  deleteOne := fun _ _ s => (.error err, s)

/-- A driver whose handle is available and whose every collection operation
rejects with `err`. -/
def rejecting (err : Val) : Mongo Unit where
  newObjectId := objectIdOfString
  getDatabase := fun _ => .ok ()
  find := fun _ _ s => (.error err, s)
  findOne := fun _ _ s => (.error err, s)
  insertOne := fun _ _ s => (.error err, s)
  replaceOne := fun _ _ _ s => (.error err, s)
  deleteOne := fun _ _ s => (.error err, s)

/-- A well-formed identifier string. -/
def sampleId : String := "64b7f0c2a1d3e4f5a6b7c8d9"

/-- The course of the test suite's `createCourse` case. -/
def sampleCourse : Val :=
  .obj [("courseName", .str "Test Course"), ("courseCode", .str "TEST101"),
    ("credits", .num 3), ("department", .str "Computer Science"),
    ("description", .str "A test course"),
    ("prerequisites", .arr [.str "MATH101"])]

/-- A semester payload (the scenario of the specification). -/
def sampleSemester : Val :=
  .obj [("year", .str "2024"), ("semesterSeason", .str "Winter"),
    ("semesterStart", .str "2024-01-08"), ("semesterEnd", .str "2024-04-20")]

/-- A script with one stored document and successful writes. -/
def sampleScript : Script where
  found := [sampleCourse]
  one := sampleSemester
  inserted := ⟨true, .oid sampleId⟩
  replaced := ⟨true, 1, 1⟩
  deleted := ⟨true, 1⟩

/-- A script for an empty store: nothing found, nothing modified or deleted,
insert not acknowledged. -/
def emptyScript : Script where
  found := []
  one := .null
  inserted := ⟨false, .undefined⟩
  replaced := ⟨true, 0, 0⟩
  deleted := ⟨true, 0⟩

/-- An `Error` object with the given message. -/
def errorOf (msg : String) : Val := .obj [("message", .str msg)]

/-! ## middleware/validation.js -/

namespace Joi

/-- One entry of `error.details`: Joi's error code and rendered message. -/
structure Detail where
  message : String
  type : String
  deriving DecidableEq

/-- The `error` of a validation result; with Joi's default `abortEarly` it
carries the first violation only. -/
structure ValidationError where
  details : List Detail
  deriving DecidableEq

/-- A schema, as far as the middleware uses it: `schema.validate(value).error`,
with `none` for an absent error. -/
abbrev Schema := Val → Option ValidationError

/-- A violation of code `code` on the key `label`, rendered with Joi's default
message template. -/
def report (label code text : String) : Detail :=
  ⟨"\"" ++ label ++ "\" " ++ text, code⟩

/-- The first violation of a sequence of checks. -/
def firstOf : List (Option Detail) → Option Detail
  | [] => none
  | some d :: _ => some d
  | none :: rest => firstOf rest

/-- The presence check of a key whose value is `undefined`. -/
def absent (required : Bool) (label : String) : Option Detail :=
  if required then some (report label "any.required" "is required") else none

/-- `Joi.string().min(lo).max(hi)` followed by `.required()` or `.optional()`:
a string; the empty string is refused unless `lo` is 0; then the rules `min`
and `max` on the string's length, in that order. -/
def string (lo hi : Nat) (required : Bool) (label : String) (v : Val) : Option Detail :=
  match v with
  | .undefined => absent required label
  | .str s =>
    if s = "" ∧ lo ≠ 0 then some (report label "string.empty" "is not allowed to be empty")
    else if jsLength s < lo then
      some (report label "string.min"
        ("length must be at least " ++ toString lo ++ " characters long"))
    else if hi < jsLength s then
      some (report label "string.max"
        ("length must be less than or equal to " ++ toString hi ++ " characters long"))
    else none
  | _ => some (report label "string.base" "must be a string")

/-- What Joi's number type makes of a string under the default `convert`
preference: left as it is (not a numeral), converted to the numeral's value,
or refused because the value cannot be held exactly. -/
inductive Coerced where
  | unchanged
  | value (q : ℚ)
  | notSafe

/-- `Number.MAX_SAFE_INTEGER`. -/
def maxSafeInteger : ℚ := 9007199254740991

/-- The number type after conversion, for
`Joi.number().integer().min(lo).max(hi)`: presence, then the base type (a
finite safe number), then the rules `integer`, `min` and `max`, in that order. -/
def integerBase (lo hi : ℤ) (required : Bool) (label : String) (w : Val) : Option Detail :=
  match w with
  | .undefined => absent required label
  | .inf _ => some (report label "number.infinity" "cannot be infinity")
  | .num q =>
    if q > maxSafeInteger ∨ q < -maxSafeInteger then
      some (report label "number.unsafe" "must be a safe number")
    else if ¬ q.isInt then some (report label "number.integer" "must be an integer")
    else if q < lo then
      some (report label "number.min" ("must be greater than or equal to " ++ toString lo))
    else if q > hi then
      some (report label "number.max" ("must be less than or equal to " ++ toString hi))
    else none
  | _ => some (report label "number.base" "must be a number")

/-- `Joi.number().integer().min(lo).max(hi)` followed by `.required()` or
`.optional()`. Under the default `convert` preference a string is first put
through the conversion `coerce`; the outcome is then checked as a number. -/
def integer (coerce : String → Coerced) (lo hi : ℤ) (required : Bool) (label : String)
    (v : Val) : Option Detail :=
  match v with
  | .str s =>
    match coerce s with
    | .unchanged => integerBase lo hi required label v
    | .value q => integerBase lo hi required label (.num q)
    | .notSafe => some (report label "number.unsafe" "must be a safe number")
  | _ => integerBase lo hi required label v

/-- The items of `Joi.array().items(Joi.string().min(lo).max(hi))`, from index
`i` on: an `undefined` item is refused as sparse, any other item is checked
against the string schema under the label `label[i]`. -/
def items (lo hi : Nat) (label : String) : Nat → List Val → Option Detail
  | _, [] => none
  | i, v :: rest =>
    let here :=
      match v with
      | .undefined =>
        some (report (label ++ "[" ++ toString i ++ "]") "array.sparse"
          "must not be a sparse array item")
      | _ => string lo hi false (label ++ "[" ++ toString i ++ "]") v
    match here with
    | some d => some d
    | none => items lo hi label (i + 1) rest

/-- `Joi.array().items(Joi.string().min(lo).max(hi))` followed by
`.required()` or `.optional()`. -/
def stringArray (lo hi : Nat) (required : Bool) (label : String) (v : Val) : Option Detail :=
  match v with
  | .undefined => absent required label
  | .arr xs => items lo hi label 0 xs
  | _ => some (report label "array.base" "must be an array")

/-- The keys of `courseSchema`. -/
def courseKeys : List String :=
  ["courseName", "courseCode", "credits", "department", "description", "prerequisites"]

/-- The first own key of the value that the schema does not declare
(`allowUnknown` is off by default). -/
def unknownKey (props : List (String × Val)) : Option Detail :=
  match props.find? (fun p => !(courseKeys.contains p.1)) with
  | some p => some (report p.1 "object.unknown" "is not allowed")
  | none => none

/-- `courseSchema.validate(body).error` under Joi's default preferences. The
schema itself is not `required()`, so `undefined` is valid; any other value
must be an object; its declared keys are checked in the order of the schema,
then unknown keys, and the first violation is the error. -/
def courseSchema (coerce : String → Coerced) : Schema := fun body =>
  match body with
  | .undefined => none
  | .obj props =>
    let value := fun key => (props.lookup key).getD .undefined
    match firstOf [
        string 1 200 true "courseName" (value "courseName"),
        string 3 20 true "courseCode" (value "courseCode"),
        integer coerce 1 6 true "credits" (value "credits"),
        string 1 100 true "department" (value "department"),
        string 10 1000 false "description" (value "description"),
        stringArray 3 20 false "prerequisites" (value "prerequisites"),
        unknownKey props] with
    | some d => some ⟨[d]⟩
    | none => none
  | _ => some ⟨[report "value" "object.base" "must be of type object"]⟩

/-- Decimal digit. -/
def isDigit (c : Char) : Bool := 48 ≤ c.toNat && c.toNat ≤ 57

/-- The conversion on strings of decimal digits only, where Joi's conversion
yields the numeral's value; other strings are left as they are here. It
instantiates the conversion at concrete inputs. -/
def digitsCoerce (s : String) : Coerced :=
  if s.data ≠ [] ∧ s.data.all isDigit then
    .value ((s.data.foldl (fun n c => 10 * n + (c.toNat - 48)) 0 : ℕ) : ℚ)
  else .unchanged

end Joi

/-- What a middleware did: the responses it wrote, what it threw, and whether
it called `next()`. -/
structure MiddlewareRun where
  responses : List Response
  thrown : Option Val
  calledNext : Bool

/-- `validate(schema)` of `middleware/validation.js`. Reading
`error.details[0].message` throws if `details` is empty. -/
def validate (schema : Joi.Schema) (req : Request) : MiddlewareRun :=
  match schema req.body with
  | some error =>
    match error.details with
    | first :: _ =>
      { responses := [⟨400, .json (Val.message (.str first.message))⟩], thrown := none,
        calledNext := false }
    | [] =>
      { responses := [], thrown := some (Val.typeError "undefined" "message"),
        calledNext := false }
  | none => { responses := [], thrown := none, calledNext := true }

/-- `validateCourse` of `middleware/validation.js`. -/
def validateCourse (coerce : String → Joi.Coerced) : Request → MiddlewareRun :=
  validate (Joi.courseSchema coerce)

/-! ## routes/course.js -/

/-- A route `router.METHOD(path, middleware, controller)`: Express runs the
controller only if the middleware called `next()`. -/
def route {σ : Type} (middleware : Request → MiddlewareRun) (name : String)
    (controller : Mongo σ → Request → σ → Run σ) (m : Mongo σ) (req : Request) (s : σ) :
    Run σ :=
  let v := middleware req
  if v.calledNext then
    let r := controller m req s
    { responses := v.responses ++ r.responses, thrown := r.thrown, state := r.state,
      trace := .controller name :: r.trace }
  else { responses := v.responses, thrown := v.thrown, state := s, trace := [] }

/-- `router.post('/', validation.validateCourse, courseController.createCourse)`. -/
def postCourse {σ : Type} (coerce : String → Joi.Coerced) : Mongo σ → Request → σ → Run σ :=
  route (validateCourse coerce) "createCourse" Course.createCourse

/-- `router.put('/:id', validation.validateCourse, courseController.updateCourse)`. -/
def putCourse {σ : Type} (coerce : String → Joi.Coerced) : Mongo σ → Request → σ → Run σ :=
  route (validateCourse coerce) "updateCourse" Course.updateCourse

/-! ## The specification's statements about course payloads -/

namespace Spec

/-- The course validator's acceptance condition in the specification's words:
courseName a string of 1 to 200 characters, courseCode a string of 3 to 20,
credits an integer from 1 to 6, department a string of 1 to 100, description
absent or a string of 10 to 1000, prerequisites absent or a sequence of
strings of 3 to 20 characters each. -/
def CourseValid (body : Val) : Prop :=
  (body.field "courseName").isStringOf 1 200 = true ∧
  (body.field "courseCode").isStringOf 3 20 = true ∧
  (body.field "credits").isIntegerOf 1 6 = true ∧
  (body.field "department").isStringOf 1 100 = true ∧
  (body.field "description" = .undefined ∨
    (body.field "description").isStringOf 10 1000 = true) ∧
  (body.field "prerequisites" = .undefined ∨
    ∃ xs, body.field "prerequisites" = .arr xs ∧ ∀ x ∈ xs, x.isStringOf 3 20 = true)

/-- The specification's statement about the stored document: each of the six
known fields is copied unchanged from the body, except that prerequisites is
the empty sequence when the body has none. -/
def CopiedUnchanged (body doc : Val) : Prop :=
  ∀ key ∈ Joi.courseKeys,
    (key = "prerequisites" ∧ body.field key = .undefined → doc.field key = .arr []) ∧
    (¬ (key = "prerequisites" ∧ body.field key = .undefined) →
      doc.field key = body.field key)

/-- The document the controllers build from a body: the five plain fields as
found in the body, and prerequisites as found when truthy, the empty sequence
otherwise. -/
def courseDocument (body : Val) : Val :=
  .obj [("courseName", body.field "courseName"), ("courseCode", body.field "courseCode"),
    ("credits", body.field "credits"), ("department", body.field "department"),
    ("description", body.field "description"),
    ("prerequisites",
      if (body.field "prerequisites").truthy then body.field "prerequisites" else .arr [])]

end Spec

/-- A payload whose credits is the string `'3'`. -/
def stringCreditsCourse : Val :=
  .obj [("courseName", .str "Intro to CS"), ("courseCode", .str "CSE101"),
    ("credits", .str "3"), ("department", .str "CS")]

/-- A payload whose prerequisites is the empty string. -/
def emptyPrerequisitesCourse : Val :=
  .obj [("courseName", .str "Intro to CS"), ("courseCode", .str "CSE101"),
    ("credits", .num 3), ("department", .str "CS"), ("prerequisites", .str "")]

/-- A payload with an unknown key and no prerequisites. -/
def extraFieldCourse : Val :=
  .obj [("courseName", .str "Intro to CS"), ("instructor", .str "Ada"),
    ("courseCode", .str "CSE101"), ("credits", .num 3), ("department", .str "CS")]

/-! ## The document store -/

/-- The hexadecimal digit of a value below 16, in lower case. -/
def hexDigit (d : Nat) : Char := "0123456789abcdef".data.getD d '0'

/-- The `w` low hexadecimal digits of `n`, most significant first. -/
def hexDigits : Nat → Nat → List Char
  | 0, _ => []
  | w + 1, n => hexDigits w (n / 16) ++ [hexDigit (n % 16)]

/-- The identifier string (24 hexadecimal digits) of the `n`-th identifier the
store hands out. -/
def hexOf (n : Nat) : String := String.mk (hexDigits 24 n)

/-- Modelled from the spec: the document database behind `mongodb`, which is
not part of the repository. It holds the documents of all collections in
insertion order, each paired with its collection's name, and a counter from
which the next identifier is drawn (identifiers are opaque and
database-assigned). `connected` is the module variable `_db` of
`db/connect.js` being set. -/
structure Store where
  connected : Bool
  nextId : Nat
  docs : List (String × Val)

namespace Store

/-- The filter `{ _id: id }` applied to a document: both are `ObjectId`s with
the same hexadecimal form. -/
def idMatches (id doc : Val) : Bool :=
  match doc.field "_id", id with
  | .oid a, .oid b => decide (a = b)
  | _, _ => false

/-- A document of collection `c` selected by the filter (`none`: no filter). -/
def selects (c : String) (filter : Option Val) (entry : String × Val) : Bool :=
  decide (entry.1 = c) &&
    (match filter with
     | none => true
     | some id => idMatches id entry.2)

/-- The document with its identifier in first position, as the database keeps
it. -/
def withId (id : Val) (props : List (String × Val)) : Val :=
  .obj (("_id", id) :: props)

/-- The error for a write whose argument is not a document. -/
def notADocument : Val := .obj [("message", .str "document must be an object")]

/-- Replace the first selected entry by `doc` under the same identifier;
`none` if no entry is selected. -/
def replaceFirst (c : String) (id : Val) (props : List (String × Val)) :
    List (String × Val) → Option (List (String × Val))
  | [] => none
  | entry :: rest =>
    if selects c (some id) entry then some ((c, withId (entry.2.field "_id") props) :: rest)
    else (replaceFirst c id props rest).map (fun out => entry :: out)

/-- Remove the first selected entry; `none` if no entry is selected. -/
def removeFirst (c : String) (id : Val) : List (String × Val) → Option (List (String × Val))
  | [] => none
  | entry :: rest =>
    if selects c (some id) entry then some rest
    else (removeFirst c id rest).map (fun out => entry :: out)

/-- The identifiers in use are the ones handed out so far, and the counter has
not run through the identifier space. -/
def WellFormed (s : Store) : Prop :=
  s.nextId < 16 ^ 24 ∧
    ∀ entry ∈ s.docs, ∃ k, k < s.nextId ∧ entry.2.field "_id" = .oid (hexOf k)

/-- A connected store without documents. -/
def empty : Store := { connected := true, nextId := 0, docs := [] }

end Store

/-- Modelled from the spec: the repository operations of section 4.2 over the
store. list and getById return the selected documents in stored order; create
stores the document under a new identifier and returns the acknowledgement
flag and the identifier; replace replaces the entire stored document matching
the identifier and returns the modified-count; delete removes the matching
document and returns the deleted-count. `getDatabase` is `db/connect.js`: it
throws `Database not initialized` until the handle is set. -/
def memory : Mongo Store where
  newObjectId := objectIdOfString
  getDatabase := fun s =>
    if s.connected then .ok () else .error (.obj [("message", .str "Database not initialized")])
  find := fun c filter s => (.ok ((s.docs.filter (Store.selects c filter)).map (·.2)), s)
  findOne := fun c id s =>
    (.ok (((s.docs.filter (Store.selects c (some id))).map (·.2)).headD .null), s)
  insertOne := fun c doc s =>
    match doc with
    | .obj props =>
      (.ok ⟨true, .oid (hexOf s.nextId)⟩,
        { s with nextId := s.nextId + 1,
                 docs := s.docs ++ [(c, Store.withId (.oid (hexOf s.nextId)) props)] })
    | _ => (.error Store.notADocument, s)
  replaceOne := fun c id doc s =>
    match doc with
    | .obj props =>
      match Store.replaceFirst c id props s.docs with
      | some docs => (.ok ⟨true, 1, 1⟩, { s with docs := docs })
      | none => (.ok ⟨true, 0, 0⟩, s)
    | _ => (.error Store.notADocument, s)
  deleteOne := fun c id s =>
    match Store.removeFirst c id s.docs with
    | some docs => (.ok ⟨true, 1⟩, { s with docs := docs })
    | none => (.ok ⟨true, 0⟩, s)

namespace Spec

/-- A valid course payload: one that meets the specification's field bounds,
or one that is present and accepted by the course validator. -/
def ValidPayload (coerce : String → Joi.Coerced) (p : Val) : Prop :=
  CourseValid p ∨ (p ≠ .undefined ∧ Joi.courseSchema coerce p = none)

/-- An error object in the sense of JavaScript's `Error`: an object whose
`message`, if it has one, is a string. -/
def IsError (e : Val) : Prop :=
  ∃ props, e = .obj props ∧
    (props.lookup "message" = none ∨ ∃ msg : String, props.lookup "message" = some (.str msg))

/-- Whatever the driver raises is an error object. -/
def RaisesErrors {σ : Type} (m : Mongo σ) : Prop :=
  (∀ id e, m.newObjectId id = .error e → IsError e) ∧
  (∀ s e, m.getDatabase s = .error e → IsError e) ∧
  (∀ c f s e, (m.find c f s).1 = .error e → IsError e) ∧
  (∀ c id s e, (m.findOne c id s).1 = .error e → IsError e) ∧
  (∀ c doc s e, (m.insertOne c doc s).1 = .error e → IsError e) ∧
  (∀ c id doc s e, (m.replaceOne c id doc s).1 = .error e → IsError e) ∧
  (∀ c id s e, (m.deleteOne c id s).1 = .error e → IsError e)

/-- The run raised nothing to its caller and wrote exactly one response, whose
body is `{ message: <string> }` if its status is 404 or 500. -/
def Contained {σ : Type} (r : Run σ) : Prop :=
  r.thrown = none ∧
    ∃ resp, r.responses = [resp] ∧
      (resp.status = 404 ∨ resp.status = 500 →
        ∃ text : String, resp.body = .json (.obj [("message", .str text)]))

end Spec

/-- The payload of the specification's concrete scenario. -/
def scenarioCourse : Val :=
  .obj [("courseName", .str "Intro to CS"), ("courseCode", .str "CSE101"),
    ("credits", .num 3), ("department", .str "CS")]

/-- The store after one `createCourse` on the empty store. -/
def oneCourseStore : Store :=
  (Course.createCourse memory ⟨"", sampleCourse⟩ Store.empty).state

/-- The ten handlers of the two controllers. -/
def handlers {σ : Type} : List (Mongo σ → Request → σ → Run σ) :=
  [Course.getAll, Course.getSingle, Course.createCourse, Course.updateCourse,
    Course.deleteCourse, Semester.getAll, Semester.getSingle, Semester.createSemester,
    Semester.updateSemester, Semester.deleteSemester]

/-! ## Theorems -/

/-- C1: when the id converts, the database handle is available and the lookup
returns, the course `getSingle` answers 200 with the first element of a
non-empty result array and 404 `Course not found` for an empty one; the
semester `getSingle` answers 200 with the document `findOne` returned and 404
`Semester not found` when it returned `null`. -/
theorem getSingle_found_or_not_found {σ : Type} (m : Mongo σ) (req : Request) (s : σ)
    (id : Val) (hid : m.newObjectId req.id = .ok id) (hdb : m.getDatabase s = .ok ()) :
    (∀ (first : Val) (rest : List Val) (s1 : σ),
        m.find "courses" (some id) s = (.ok (first :: rest), s1) →
        (Course.getSingle m req s).responses = [⟨200, .json first⟩] ∧
        (Course.getSingle m req s).thrown = none) ∧
    (∀ s1 : σ, m.find "courses" (some id) s = (.ok [], s1) →
        (Course.getSingle m req s).responses =
          [⟨404, .json (.obj [("message", .str "Course not found")])⟩] ∧
        (Course.getSingle m req s).thrown = none) ∧
    (∀ (props : List (String × Val)) (s1 : σ),
        m.findOne "semester" id s = (.ok (.obj props), s1) →
        (Semester.getSingle m req s).responses = [⟨200, .json (.obj props)⟩] ∧
        (Semester.getSingle m req s).thrown = none) ∧
    (∀ s1 : σ, m.findOne "semester" id s = (.ok .null, s1) →
        (Semester.getSingle m req s).responses =
          [⟨404, .json (.obj [("message", .str "Semester not found")])⟩] ∧
        (Semester.getSingle m req s).thrown = none) := by
  refine ⟨?_, ?_, ?_, ?_⟩
  · intro first rest s1 h
    simp [Course.getSingle, hid, hdb, h, respond]
  · intro s1 h
    simp [Course.getSingle, hid, hdb, h, respond, Val.message]
  · intro props s1 h
    simp [Semester.getSingle, hid, hdb, h, respond, Val.truthy]
  · intro s1 h
    simp [Semester.getSingle, hid, hdb, h, respond, Val.truthy, Val.message]

/-- C1 at concrete inputs: a stored course and semester are returned with 200,
an empty store gives 404. -/
theorem getSingle_found_or_not_found_witness :
    ((Course.getSingle (scripted sampleScript) ⟨sampleId, .undefined⟩ ()).responses =
        [⟨200, .json sampleCourse⟩] ∧
      (Course.getSingle (scripted sampleScript) ⟨sampleId, .undefined⟩ ()).thrown = none) ∧
    ((Course.getSingle (scripted emptyScript) ⟨sampleId, .undefined⟩ ()).responses =
        [⟨404, .json (.obj [("message", .str "Course not found")])⟩] ∧
      (Course.getSingle (scripted emptyScript) ⟨sampleId, .undefined⟩ ()).thrown = none) ∧
    ((Semester.getSingle (scripted sampleScript) ⟨sampleId, .undefined⟩ ()).responses =
        [⟨200, .json sampleSemester⟩] ∧
      (Semester.getSingle (scripted sampleScript) ⟨sampleId, .undefined⟩ ()).thrown = none) ∧
    ((Semester.getSingle (scripted emptyScript) ⟨sampleId, .undefined⟩ ()).responses =
        [⟨404, .json (.obj [("message", .str "Semester not found")])⟩] ∧
      (Semester.getSingle (scripted emptyScript) ⟨sampleId, .undefined⟩ ()).thrown = none) :=
  ⟨(getSingle_found_or_not_found (scripted sampleScript) ⟨sampleId, .undefined⟩ ()
      (.oid sampleId) rfl rfl).1 sampleCourse [] () rfl,
   (getSingle_found_or_not_found (scripted emptyScript) ⟨sampleId, .undefined⟩ ()
      (.oid sampleId) rfl rfl).2.1 () rfl,
   (getSingle_found_or_not_found (scripted sampleScript) ⟨sampleId, .undefined⟩ ()
      (.oid sampleId) rfl rfl).2.2.1 _ () rfl,
   (getSingle_found_or_not_found (scripted emptyScript) ⟨sampleId, .undefined⟩ ()
      (.oid sampleId) rfl rfl).2.2.2 () rfl⟩

/-- The catch block answers 500 with the error's message, or the fallback. -/
theorem catchAll_answers {σ : Type} (fallback : String) (e em : Val) (s : σ)
    (tr : List Event) (he : e.get "message" = .ok em) :
    (catchAll fallback e s tr).answers 500 (errorReply fallback em) ∧
    (catchAll fallback e s tr).trace = tr := by
  unfold catchAll
  rw [he]
  simp only [respond, Run.answers, errorReply, Val.message, Val.or]
  by_cases h : em.truthy = true <;> simp [h]

/-- C2: when `new ObjectId(req.params.id)` throws an error whose message is the
string `msg`, the course handlers `getSingle`, `updateCourse` and
`deleteCourse` each write exactly one response, of status 500 (so neither 400
nor 404), whose body is `{ message: <string> }`: `msg` itself, or the
handler's fallback phrase if `msg` is empty; no call reaches the database. -/
theorem malformed_id_gives_500 {σ : Type} (m : Mongo σ) (req : Request) (s : σ)
    (e : Val) (msg : String) (hconv : m.newObjectId req.id = .error e)
    (hmsg : e.get "message" = .ok (.str msg)) :
    ((Course.getSingle m req s).answers 500
        (.json (.obj [("message",
          .str (if msg = "" then "Error retrieving course" else msg))])) ∧
      (Course.getSingle m req s).trace = []) ∧
    ((Course.updateCourse m req s).answers 500
        (.json (.obj [("message",
          .str (if msg = "" then "Error updating course" else msg))])) ∧
      (Course.updateCourse m req s).trace = []) ∧
    ((Course.deleteCourse m req s).answers 500
        (.json (.obj [("message",
          .str (if msg = "" then "Error deleting course" else msg))])) ∧
      (Course.deleteCourse m req s).trace = []) := by
  have key : ∀ fallback : String,
      (catchAll fallback e s []).answers 500
          (.json (.obj [("message", .str (if msg = "" then fallback else msg))])) ∧
        (catchAll fallback e s []).trace = [] := by
    intro fallback
    have h := catchAll_answers fallback e (.str msg) s [] hmsg
    by_cases hm : msg = "" <;> simpa [errorReply, Val.truthy, hm] using h
  refine ⟨?_, ?_, ?_⟩
  · simpa [Course.getSingle, hconv] using key "Error retrieving course"
  · simpa [Course.updateCourse, hconv] using key "Error updating course"
  · simpa [Course.deleteCourse, hconv] using key "Error deleting course"

/-- C2 at the test suite's input: the id `invalid-id` gives 500 with the
driver's message from all three handlers. -/
theorem malformed_id_gives_500_witness :
    ((Course.getSingle (scripted sampleScript) ⟨"invalid-id", sampleCourse⟩ ()).answers 500
        (.json (.obj [("message", .str
          "input must be a 24 character hex string, 12 byte Uint8Array, or an integer")])) ∧
      (Course.getSingle (scripted sampleScript) ⟨"invalid-id", sampleCourse⟩ ()).trace = []) ∧
    ((Course.updateCourse (scripted sampleScript) ⟨"invalid-id", sampleCourse⟩ ()).answers 500
        (.json (.obj [("message", .str
          "input must be a 24 character hex string, 12 byte Uint8Array, or an integer")])) ∧
      (Course.updateCourse (scripted sampleScript) ⟨"invalid-id", sampleCourse⟩ ()).trace = []) ∧
    ((Course.deleteCourse (scripted sampleScript) ⟨"invalid-id", sampleCourse⟩ ()).answers 500
        (.json (.obj [("message", .str
          "input must be a 24 character hex string, 12 byte Uint8Array, or an integer")])) ∧
      (Course.deleteCourse (scripted sampleScript) ⟨"invalid-id", sampleCourse⟩ ()).trace = []) :=
  malformed_id_gives_500 (scripted sampleScript) ⟨"invalid-id", sampleCourse⟩ () bsonError
    "input must be a 24 character hex string, 12 byte Uint8Array, or an integer" rfl rfl

/-- C3: whenever the insert of the document built from the request body
returns a result `r`, `createCourse` answers 201 with `r` itself as body if
`r.acknowledged` is true and 500 `Failed to create course` if it is false;
`createSemester` likewise with `Failed to create semester`. -/
theorem create_maps_acknowledgement {σ : Type} (m : Mongo σ) (req : Request) (s : σ)
    (hdb : m.getDatabase s = .ok ()) :
    (∀ (doc : Val) (r : InsertOneResult) (s1 : σ),
        Course.courseOf req.body = .ok doc →
        m.insertOne "courses" doc s = (.ok r, s1) →
        (r.acknowledged = true →
          (Course.createCourse m req s).answers 201 (.json r.toVal)) ∧
        (r.acknowledged = false →
          (Course.createCourse m req s).answers 500
            (.json (.obj [("message", .str "Failed to create course")])))) ∧
    (∀ (doc : Val) (r : InsertOneResult) (s1 : σ),
        Semester.semesterOf req.body = .ok doc →
        m.insertOne "semester" doc s = (.ok r, s1) →
        (r.acknowledged = true →
          (Semester.createSemester m req s).answers 201 (.json r.toVal)) ∧
        (r.acknowledged = false →
          (Semester.createSemester m req s).answers 500
            (.json (.obj [("message", .str "Failed to create semester")])))) := by
  refine ⟨?_, ?_⟩
  · intro doc r s1 hdoc hins
    constructor <;> intro hack <;>
      simp [Course.createCourse, hdoc, hdb, hins, hack, respond, Run.answers, Val.message]
  · intro doc r s1 hdoc hins
    constructor <;> intro hack <;>
      simp [Semester.createSemester, hdoc, hdb, hins, hack, respond, Run.answers, Val.message]

/-- C3 at concrete inputs: an acknowledged insert gives 201 with the raw
result, an unacknowledged one gives 500. -/
theorem create_maps_acknowledgement_witness :
    (Course.createCourse (scripted sampleScript) ⟨"", sampleCourse⟩ ()).answers 201
        (.json (.obj [("acknowledged", .bool true), ("insertedId", .oid sampleId)])) ∧
    (Course.createCourse (scripted emptyScript) ⟨"", .obj []⟩ ()).answers 500
        (.json (.obj [("message", .str "Failed to create course")])) ∧
    (Semester.createSemester (scripted sampleScript) ⟨"", sampleSemester⟩ ()).answers 201
        (.json (.obj [("acknowledged", .bool true), ("insertedId", .oid sampleId)])) ∧
    (Semester.createSemester (scripted emptyScript) ⟨"", .obj []⟩ ()).answers 500
        (.json (.obj [("message", .str "Failed to create semester")])) :=
  ⟨((create_maps_acknowledgement (scripted sampleScript) ⟨"", sampleCourse⟩ () rfl).1
      sampleCourse ⟨true, .oid sampleId⟩ () rfl rfl).1 rfl,
   ((create_maps_acknowledgement (scripted emptyScript) ⟨"", .obj []⟩ () rfl).1
      _ ⟨false, .undefined⟩ () rfl rfl).2 rfl,
   ((create_maps_acknowledgement (scripted sampleScript) ⟨"", sampleSemester⟩ () rfl).2
      sampleSemester ⟨true, .oid sampleId⟩ () rfl rfl).1 rfl,
   ((create_maps_acknowledgement (scripted emptyScript) ⟨"", .obj []⟩ () rfl).2
      _ ⟨false, .undefined⟩ () rfl rfl).2 rfl⟩

/-- C4: whenever the id converts and the replace of the document built from the
request body returns a result `r`, `updateCourse` answers 204 with an empty
body if `r.modifiedCount > 0` and 404 `Course not found` if it is 0;
`updateSemester` likewise with `Semester not found`. -/
theorem update_maps_modifiedCount {σ : Type} (m : Mongo σ) (req : Request) (s : σ)
    (id : Val) (hid : m.newObjectId req.id = .ok id) (hdb : m.getDatabase s = .ok ()) :
    (∀ (doc : Val) (r : UpdateResult) (s1 : σ),
        Course.courseOf req.body = .ok doc →
        m.replaceOne "courses" id doc s = (.ok r, s1) →
        (r.modifiedCount > 0 → (Course.updateCourse m req s).answers 204 .empty) ∧
        (r.modifiedCount = 0 →
          (Course.updateCourse m req s).answers 404
            (.json (.obj [("message", .str "Course not found")])))) ∧
    (∀ (doc : Val) (r : UpdateResult) (s1 : σ),
        Semester.semesterOf req.body = .ok doc →
        m.replaceOne "semester" id doc s = (.ok r, s1) →
        (r.modifiedCount > 0 → (Semester.updateSemester m req s).answers 204 .empty) ∧
        (r.modifiedCount = 0 →
          (Semester.updateSemester m req s).answers 404
            (.json (.obj [("message", .str "Semester not found")])))) := by
  refine ⟨?_, ?_⟩
  · intro doc r s1 hdoc hrep
    constructor <;> intro hcount <;>
      simp [Course.updateCourse, hid, hdoc, hdb, hrep, hcount, respond, Run.answers,
        Val.message]
  · intro doc r s1 hdoc hrep
    constructor <;> intro hcount <;>
      simp [Semester.updateSemester, hid, hdoc, hdb, hrep, hcount, respond, Run.answers,
        Val.message]

/-- C4 at concrete inputs: one modified document gives 204 with no body, none
modified gives 404. -/
theorem update_maps_modifiedCount_witness :
    (Course.updateCourse (scripted sampleScript) ⟨sampleId, sampleCourse⟩ ()).answers 204
        .empty ∧
    (Course.updateCourse (scripted emptyScript) ⟨sampleId, .obj []⟩ ()).answers 404
        (.json (.obj [("message", .str "Course not found")])) ∧
    (Semester.updateSemester (scripted sampleScript) ⟨sampleId, sampleSemester⟩ ()).answers
        204 .empty ∧
    (Semester.updateSemester (scripted emptyScript) ⟨sampleId, .obj []⟩ ()).answers 404
        (.json (.obj [("message", .str "Semester not found")])) :=
  ⟨((update_maps_modifiedCount (scripted sampleScript) ⟨sampleId, sampleCourse⟩ ()
      (.oid sampleId) rfl rfl).1 sampleCourse ⟨true, 1, 1⟩ () rfl rfl).1 (by decide),
   ((update_maps_modifiedCount (scripted emptyScript) ⟨sampleId, .obj []⟩ ()
      (.oid sampleId) rfl rfl).1 _ ⟨true, 0, 0⟩ () rfl rfl).2 rfl,
   ((update_maps_modifiedCount (scripted sampleScript) ⟨sampleId, sampleSemester⟩ ()
      (.oid sampleId) rfl rfl).2 sampleSemester ⟨true, 1, 1⟩ () rfl rfl).1 (by decide),
   ((update_maps_modifiedCount (scripted emptyScript) ⟨sampleId, .obj []⟩ ()
      (.oid sampleId) rfl rfl).2 _ ⟨true, 0, 0⟩ () rfl rfl).2 rfl⟩

/-- C5: whenever the id converts and the delete returns a result `r`,
`deleteCourse` answers 200 `Course deleted successfully` if
`r.deletedCount > 0` and 404 `Course not found` if it is 0; `deleteSemester`
likewise with `Semester deleted successfully` and `Semester not found`. -/
theorem delete_maps_deletedCount {σ : Type} (m : Mongo σ) (req : Request) (s : σ)
    (id : Val) (hid : m.newObjectId req.id = .ok id) (hdb : m.getDatabase s = .ok ()) :
    (∀ (r : DeleteResult) (s1 : σ),
        m.deleteOne "courses" id s = (.ok r, s1) →
        (r.deletedCount > 0 →
          (Course.deleteCourse m req s).answers 200
            (.json (.obj [("message", .str "Course deleted successfully")]))) ∧
        (r.deletedCount = 0 →
          (Course.deleteCourse m req s).answers 404
            (.json (.obj [("message", .str "Course not found")])))) ∧
    (∀ (r : DeleteResult) (s1 : σ),
        m.deleteOne "semester" id s = (.ok r, s1) →
        (r.deletedCount > 0 →
          (Semester.deleteSemester m req s).answers 200
            (.json (.obj [("message", .str "Semester deleted successfully")]))) ∧
        (r.deletedCount = 0 →
          (Semester.deleteSemester m req s).answers 404
            (.json (.obj [("message", .str "Semester not found")])))) := by
  refine ⟨?_, ?_⟩
  · intro r s1 hdel
    constructor <;> intro hcount <;>
      simp [Course.deleteCourse, hid, hdb, hdel, hcount, respond, Run.answers, Val.message]
  · intro r s1 hdel
    constructor <;> intro hcount <;>
      simp [Semester.deleteSemester, hid, hdb, hdel, hcount, respond, Run.answers,
        Val.message]

/-- C5 at concrete inputs: one deleted document gives 200 with the success
message, none deleted gives 404. -/
theorem delete_maps_deletedCount_witness :
    (Course.deleteCourse (scripted sampleScript) ⟨sampleId, .undefined⟩ ()).answers 200
        (.json (.obj [("message", .str "Course deleted successfully")])) ∧
    (Course.deleteCourse (scripted emptyScript) ⟨sampleId, .undefined⟩ ()).answers 404
        (.json (.obj [("message", .str "Course not found")])) ∧
    (Semester.deleteSemester (scripted sampleScript) ⟨sampleId, .undefined⟩ ()).answers 200
        (.json (.obj [("message", .str "Semester deleted successfully")])) ∧
    (Semester.deleteSemester (scripted emptyScript) ⟨sampleId, .undefined⟩ ()).answers 404
        (.json (.obj [("message", .str "Semester not found")])) :=
  ⟨((delete_maps_deletedCount (scripted sampleScript) ⟨sampleId, .undefined⟩ ()
      (.oid sampleId) rfl rfl).1 ⟨true, 1⟩ () rfl).1 (by decide),
   ((delete_maps_deletedCount (scripted emptyScript) ⟨sampleId, .undefined⟩ ()
      (.oid sampleId) rfl rfl).1 ⟨true, 0⟩ () rfl).2 rfl,
   ((delete_maps_deletedCount (scripted sampleScript) ⟨sampleId, .undefined⟩ ()
      (.oid sampleId) rfl rfl).2 ⟨true, 1⟩ () rfl).1 (by decide),
   ((delete_maps_deletedCount (scripted emptyScript) ⟨sampleId, .undefined⟩ ()
      (.oid sampleId) rfl rfl).2 ⟨true, 0⟩ () rfl).2 rfl⟩

/-- C6: let `e` be an error object and `em` the value of `e.message`. In each
of the ten handlers, if the identifier conversion, `getDatabase()` or the
database call throws `e` (the steps before it having succeeded), the handler
answers 500 with body `{ message: m }`, where `m` is `em` when it is present
(truthy: in particular any non-empty string) and the handler's own fallback
phrase otherwise. -/
theorem raised_error_gives_500 {σ : Type} (m : Mongo σ) (req : Request) (s : σ)
    (e em : Val) (he : e.get "message" = .ok em) :
    -- course getAll
    ((m.getDatabase s = .error e →
        (Course.getAll m req s).answers 500 (errorReply "Error retrieving courses" em)) ∧
      (∀ s1, m.getDatabase s = .ok () → m.find "courses" none s = (.error e, s1) →
        (Course.getAll m req s).answers 500 (errorReply "Error retrieving courses" em))) ∧
    -- course getSingle
    ((m.newObjectId req.id = .error e →
        (Course.getSingle m req s).answers 500 (errorReply "Error retrieving course" em)) ∧
      (∀ id, m.newObjectId req.id = .ok id → m.getDatabase s = .error e →
        (Course.getSingle m req s).answers 500 (errorReply "Error retrieving course" em)) ∧
      (∀ id s1, m.newObjectId req.id = .ok id → m.getDatabase s = .ok () →
        m.find "courses" (some id) s = (.error e, s1) →
        (Course.getSingle m req s).answers 500 (errorReply "Error retrieving course" em))) ∧
    -- createCourse
    ((∀ doc, Course.courseOf req.body = .ok doc → m.getDatabase s = .error e →
        (Course.createCourse m req s).answers 500 (errorReply "Error creating course" em)) ∧
      (∀ doc s1, Course.courseOf req.body = .ok doc → m.getDatabase s = .ok () →
        m.insertOne "courses" doc s = (.error e, s1) →
        (Course.createCourse m req s).answers 500 (errorReply "Error creating course" em))) ∧
    -- updateCourse
    ((m.newObjectId req.id = .error e →
        (Course.updateCourse m req s).answers 500 (errorReply "Error updating course" em)) ∧
      (∀ id doc, m.newObjectId req.id = .ok id → Course.courseOf req.body = .ok doc →
        m.getDatabase s = .error e →
        (Course.updateCourse m req s).answers 500 (errorReply "Error updating course" em)) ∧
      (∀ id doc s1, m.newObjectId req.id = .ok id → Course.courseOf req.body = .ok doc →
        m.getDatabase s = .ok () → m.replaceOne "courses" id doc s = (.error e, s1) →
        (Course.updateCourse m req s).answers 500 (errorReply "Error updating course" em))) ∧
    -- deleteCourse
    ((m.newObjectId req.id = .error e →
        (Course.deleteCourse m req s).answers 500 (errorReply "Error deleting course" em)) ∧
      (∀ id, m.newObjectId req.id = .ok id → m.getDatabase s = .error e →
        (Course.deleteCourse m req s).answers 500 (errorReply "Error deleting course" em)) ∧
      (∀ id s1, m.newObjectId req.id = .ok id → m.getDatabase s = .ok () →
        m.deleteOne "courses" id s = (.error e, s1) →
        (Course.deleteCourse m req s).answers 500 (errorReply "Error deleting course" em))) ∧
    -- semester getAll
    ((m.getDatabase s = .error e →
        (Semester.getAll m req s).answers 500 (errorReply "Error retrieving semesters" em)) ∧
      (∀ s1, m.getDatabase s = .ok () → m.find "semester" none s = (.error e, s1) →
        (Semester.getAll m req s).answers 500
          (errorReply "Error retrieving semesters" em))) ∧
    -- semester getSingle
    ((m.newObjectId req.id = .error e →
        (Semester.getSingle m req s).answers 500
          (errorReply "Error retrieving semester" em)) ∧
      (∀ id, m.newObjectId req.id = .ok id → m.getDatabase s = .error e →
        (Semester.getSingle m req s).answers 500
          (errorReply "Error retrieving semester" em)) ∧
      (∀ id s1, m.newObjectId req.id = .ok id → m.getDatabase s = .ok () →
        m.findOne "semester" id s = (.error e, s1) →
        (Semester.getSingle m req s).answers 500
          (errorReply "Error retrieving semester" em))) ∧
    -- createSemester
    ((∀ doc, Semester.semesterOf req.body = .ok doc → m.getDatabase s = .error e →
        (Semester.createSemester m req s).answers 500
          (errorReply "Error creating semester" em)) ∧
      (∀ doc s1, Semester.semesterOf req.body = .ok doc → m.getDatabase s = .ok () →
        m.insertOne "semester" doc s = (.error e, s1) →
        (Semester.createSemester m req s).answers 500
          (errorReply "Error creating semester" em))) ∧
    -- updateSemester
    ((m.newObjectId req.id = .error e →
        (Semester.updateSemester m req s).answers 500
          (errorReply "Error updating semester" em)) ∧
      (∀ id doc, m.newObjectId req.id = .ok id → Semester.semesterOf req.body = .ok doc →
        m.getDatabase s = .error e →
        (Semester.updateSemester m req s).answers 500
          (errorReply "Error updating semester" em)) ∧
      (∀ id doc s1, m.newObjectId req.id = .ok id → Semester.semesterOf req.body = .ok doc →
        m.getDatabase s = .ok () → m.replaceOne "semester" id doc s = (.error e, s1) →
        (Semester.updateSemester m req s).answers 500
          (errorReply "Error updating semester" em))) ∧
    -- deleteSemester
    ((m.newObjectId req.id = .error e →
        (Semester.deleteSemester m req s).answers 500
          (errorReply "Error deleting semester" em)) ∧
      (∀ id, m.newObjectId req.id = .ok id → m.getDatabase s = .error e →
        (Semester.deleteSemester m req s).answers 500
          (errorReply "Error deleting semester" em)) ∧
      (∀ id s1, m.newObjectId req.id = .ok id → m.getDatabase s = .ok () →
        m.deleteOne "semester" id s = (.error e, s1) →
        (Semester.deleteSemester m req s).answers 500
          (errorReply "Error deleting semester" em))) := by
  have key : ∀ (fallback : String) (s1 : σ) (tr : List Event),
      (catchAll fallback e s1 tr).answers 500 (errorReply fallback em) :=
    fun fallback s1 tr => (catchAll_answers fallback e em s1 tr he).1
  refine ⟨⟨?_, ?_⟩, ⟨?_, ?_, ?_⟩, ⟨?_, ?_⟩, ⟨?_, ?_, ?_⟩, ⟨?_, ?_, ?_⟩,
    ⟨?_, ?_⟩, ⟨?_, ?_, ?_⟩, ⟨?_, ?_⟩, ⟨?_, ?_, ?_⟩, ⟨?_, ?_, ?_⟩⟩
  · intro h1; simpa [Course.getAll, h1] using key _ _ _
  · intro s1 h1 h2; simpa [Course.getAll, h1, h2] using key _ _ _
  · intro h1; simpa [Course.getSingle, h1] using key _ _ _
  · intro id h1 h2; simpa [Course.getSingle, h1, h2] using key _ _ _
  · intro id s1 h1 h2 h3; simpa [Course.getSingle, h1, h2, h3] using key _ _ _
  · intro doc h1 h2; simpa [Course.createCourse, h1, h2] using key _ _ _
  · intro doc s1 h1 h2 h3; simpa [Course.createCourse, h1, h2, h3] using key _ _ _
  · intro h1; simpa [Course.updateCourse, h1] using key _ _ _
  · intro id doc h1 h2 h3; simpa [Course.updateCourse, h1, h2, h3] using key _ _ _
  · intro id doc s1 h1 h2 h3 h4
    simpa [Course.updateCourse, h1, h2, h3, h4] using key _ _ _
  · intro h1; simpa [Course.deleteCourse, h1] using key _ _ _
  · intro id h1 h2; simpa [Course.deleteCourse, h1, h2] using key _ _ _
  · intro id s1 h1 h2 h3; simpa [Course.deleteCourse, h1, h2, h3] using key _ _ _
  · intro h1; simpa [Semester.getAll, h1] using key _ _ _
  · intro s1 h1 h2; simpa [Semester.getAll, h1, h2] using key _ _ _
  · intro h1; simpa [Semester.getSingle, h1] using key _ _ _
  · intro id h1 h2; simpa [Semester.getSingle, h1, h2] using key _ _ _
  · intro id s1 h1 h2 h3; simpa [Semester.getSingle, h1, h2, h3] using key _ _ _
  · intro doc h1 h2; simpa [Semester.createSemester, h1, h2] using key _ _ _
  · intro doc s1 h1 h2 h3; simpa [Semester.createSemester, h1, h2, h3] using key _ _ _
  · intro h1; simpa [Semester.updateSemester, h1] using key _ _ _
  · intro id doc h1 h2 h3; simpa [Semester.updateSemester, h1, h2, h3] using key _ _ _
  · intro id doc s1 h1 h2 h3 h4
    simpa [Semester.updateSemester, h1, h2, h3, h4] using key _ _ _
  · intro h1; simpa [Semester.deleteSemester, h1] using key _ _ _
  · intro id h1 h2; simpa [Semester.deleteSemester, h1, h2] using key _ _ _
  · intro id s1 h1 h2 h3; simpa [Semester.deleteSemester, h1, h2, h3] using key _ _ _

/-- C6 at concrete inputs: the test suite's two database failures pass the
error's message through; an empty message and an error without a message give
the fallback phrase; a malformed id gives the driver's message. -/
theorem raised_error_gives_500_witness :
    (Course.getAll (noDatabase (errorOf "DB error")) ⟨"", .undefined⟩ ()).answers 500
        (.json (.obj [("message", .str "DB error")])) ∧
    (Course.updateCourse (noDatabase (errorOf "DB connection error"))
        ⟨sampleId, .obj []⟩ ()).answers 500
        (.json (.obj [("message", .str "DB connection error")])) ∧
    (Course.getAll (rejecting (errorOf "")) ⟨"", .undefined⟩ ()).answers 500
        (.json (.obj [("message", .str "Error retrieving courses")])) ∧
    (Semester.createSemester (rejecting (.obj [])) ⟨"", sampleSemester⟩ ()).answers 500
        (.json (.obj [("message", .str "Error creating semester")])) ∧
    (Semester.deleteSemester (scripted sampleScript) ⟨"invalid-id", .undefined⟩ ()).answers
        500 (.json (.obj [("message", .str
          "input must be a 24 character hex string, 12 byte Uint8Array, or an integer")])) :=
  ⟨(raised_error_gives_500 (noDatabase (errorOf "DB error")) ⟨"", .undefined⟩ ()
      (errorOf "DB error") (.str "DB error") rfl).1.1 rfl,
   (raised_error_gives_500 (noDatabase (errorOf "DB connection error"))
      ⟨sampleId, .obj []⟩ () (errorOf "DB connection error")
      (.str "DB connection error") rfl).2.2.2.1.2.1 (.oid sampleId) _ rfl rfl rfl,
   (raised_error_gives_500 (rejecting (errorOf "")) ⟨"", .undefined⟩ ()
      (errorOf "") (.str "") rfl).1.2 () rfl rfl,
   (raised_error_gives_500 (rejecting (.obj [])) ⟨"", sampleSemester⟩ ()
      (.obj []) .undefined rfl).2.2.2.2.2.2.2.1.2 sampleSemester () rfl rfl rfl,
   (raised_error_gives_500 (scripted sampleScript) ⟨"invalid-id", .undefined⟩ ()
      bsonError (.str
        "input must be a 24 character hex string, 12 byte Uint8Array, or an integer")
      rfl).2.2.2.2.2.2.2.2.2.1 rfl⟩

/-- C7: for every schema and request, `validate(schema)` does one of two
things. If the schema reports violations, it writes the single response 400
with body `{ message: <message of the first violation> }` and does not call
`next`; if the schema reports none, it calls `next` and writes no response. -/
theorem validate_rejects_or_continues (schema : Joi.Schema) (req : Request) :
    (∀ (first : Joi.Detail) (rest : List Joi.Detail),
        schema req.body = some ⟨first :: rest⟩ →
        (validate schema req).responses =
          [⟨400, .json (.obj [("message", .str first.message)])⟩] ∧
        (validate schema req).calledNext = false ∧
        (validate schema req).thrown = none) ∧
    (schema req.body = none →
        (validate schema req).calledNext = true ∧
        (validate schema req).responses = [] ∧
        (validate schema req).thrown = none) := by
  refine ⟨?_, ?_⟩
  · intro first rest h
    simp [validate, h, Val.message]
  · intro h
    simp [validate, h]

/-- C7 at concrete inputs: a schema reporting two violations is answered with
the first message only; the course schema lets the test suite's course
through. -/
theorem validate_rejects_or_continues_witness :
    ((validate (fun _ => some ⟨[⟨"first", "any.required"⟩, ⟨"second", "string.base"⟩]⟩)
          ⟨"", .obj []⟩).responses =
        [⟨400, .json (.obj [("message", .str "first")])⟩] ∧
      (validate (fun _ => some ⟨[⟨"first", "any.required"⟩, ⟨"second", "string.base"⟩]⟩)
          ⟨"", .obj []⟩).calledNext = false ∧
      (validate (fun _ => some ⟨[⟨"first", "any.required"⟩, ⟨"second", "string.base"⟩]⟩)
          ⟨"", .obj []⟩).thrown = none) ∧
    ((validate (Joi.courseSchema Joi.digitsCoerce) ⟨"", sampleCourse⟩).calledNext = true ∧
      (validate (Joi.courseSchema Joi.digitsCoerce) ⟨"", sampleCourse⟩).responses = [] ∧
      (validate (Joi.courseSchema Joi.digitsCoerce) ⟨"", sampleCourse⟩).thrown = none) :=
  ⟨(validate_rejects_or_continues
      (fun _ => some ⟨[⟨"first", "any.required"⟩, ⟨"second", "string.base"⟩]⟩)
      ⟨"", .obj []⟩).1 _ _ rfl,
   (validate_rejects_or_continues (Joi.courseSchema Joi.digitsCoerce) ⟨"", sampleCourse⟩).2
      (by decide)⟩

/-! ### The course schema, declaratively -/

theorem jsLength_empty : jsLength "" = 0 := rfl

theorem Joi.firstOf_eq_none (l : List (Option Joi.Detail)) :
    Joi.firstOf l = none ↔ ∀ c ∈ l, c = none := by
  induction l with
  | nil => simp [Joi.firstOf]
  | cons c rest ih =>
    cases c with
    | none => simp [Joi.firstOf, ih]
    | some d => simp [Joi.firstOf]

theorem Joi.string_eq_none (lo hi : Nat) (required : Bool) (label : String) (v : Val) :
    Joi.string lo hi required label v = none ↔
      (v = .undefined ∧ required = false) ∨ v.isStringOf lo hi = true := by
  cases v <;> simp [Joi.string, Joi.absent, Val.isStringOf]
  case str s =>
    by_cases hs : s = ""
    · subst hs
      by_cases hlo : lo = 0
      · subst hlo
        simp [jsLength_empty]
      · simp [jsLength_empty, hlo]
    · simp only [hs, false_and, if_false]
      split_ifs with h1 h2 <;> simp <;> omega

theorem Joi.integerBase_eq_none (label : String) (w : Val) :
    Joi.integerBase 1 6 true label w = none ↔ w.isIntegerOf 1 6 = true := by
  cases w <;> simp [Joi.integerBase, Joi.absent, Val.isIntegerOf]
  case num q =>
    split_ifs with h1 h2 h3 h4
    · simp
      intro _ h5
      rcases h1 with h1 | h1 <;> simp only [Joi.maxSafeInteger] at h1 <;> linarith
    · simp [h2]
    · simp
      intro _ h5
      linarith
    · simp
      intro _ _
      linarith
    · simp at h2 h3 h4
      simp [h2, h3, h4]

theorem Joi.integer_eq_none (coerce : String → Joi.Coerced) (label : String) (v : Val) :
    Joi.integer coerce 1 6 true label v = none ↔
      v.isIntegerOf 1 6 = true ∨
        ∃ s q, v = .str s ∧ coerce s = .value q ∧ (Val.num q).isIntegerOf 1 6 = true := by
  cases v
  case str s =>
    cases hc : coerce s with
    | unchanged =>
      simp [Joi.integer, hc, Joi.integerBase, Val.isIntegerOf]
    | value q =>
      simp [Joi.integer, hc, Joi.integerBase_eq_none, Val.isIntegerOf]
    | notSafe =>
      simp [Joi.integer, hc, Val.isIntegerOf]
  all_goals simp [Joi.integer, Joi.integerBase_eq_none]

theorem Joi.items_eq_none (lo hi : Nat) (label : String) (i : Nat) (xs : List Val) :
    Joi.items lo hi label i xs = none ↔ ∀ x ∈ xs, x.isStringOf lo hi = true := by
  induction xs generalizing i with
  | nil => simp [Joi.items]
  | cons x rest ih =>
    have hx : (match x with
        | .undefined =>
          some (Joi.report (label ++ "[" ++ toString i ++ "]") "array.sparse"
            "must not be a sparse array item")
        | _ => Joi.string lo hi false (label ++ "[" ++ toString i ++ "]") x) = none ↔
        x.isStringOf lo hi = true := by
      cases x <;> simp [Joi.string_eq_none, Val.isStringOf]
    cases hh : (match x with
        | .undefined =>
          some (Joi.report (label ++ "[" ++ toString i ++ "]") "array.sparse"
            "must not be a sparse array item")
        | _ => Joi.string lo hi false (label ++ "[" ++ toString i ++ "]") x) with
    | none =>
      have h1 := hx.mp hh
      simp [Joi.items, hh, ih, h1]
    | some d =>
      have h1 : ¬ x.isStringOf lo hi = true := fun h => by
        rw [hx.mpr h] at hh
        cases hh
      simp [Joi.items, hh, h1]

theorem Joi.stringArray_eq_none (lo hi : Nat) (label : String) (v : Val) :
    Joi.stringArray lo hi false label v = none ↔
      v = .undefined ∨ ∃ xs, v = .arr xs ∧ ∀ x ∈ xs, x.isStringOf lo hi = true := by
  cases v <;> simp [Joi.stringArray, Joi.absent, Joi.items_eq_none]

theorem Joi.unknownKey_eq_none (props : List (String × Val)) :
    Joi.unknownKey props = none ↔ ∀ p ∈ props, p.1 ∈ Joi.courseKeys := by
  unfold Joi.unknownKey
  cases hf : props.find? (fun p => !(Joi.courseKeys.contains p.1)) with
  | none =>
    simp only [true_iff]
    intro p hp
    have := List.find?_eq_none.mp hf p hp
    simpa using this
  | some p =>
    simp only [false_iff, reduceCtorEq]
    intro hall
    have hmem := List.mem_of_find?_eq_some hf
    have hprop := List.find?_some hf
    have := hall p hmem
    simp [this] at hprop

/-- C8 (amended): for every request that carries a body (`req.body` is any
value but `undefined`) without a `courseName` key, `POST /courses` and
`PUT /courses/:id` write the single response 400 with a `{ message }` body and
make no call at all: neither the controller nor `getDatabase` nor any
collection operation runs, and the store is left as it was. -/
theorem missing_courseName_rejected {σ : Type} (coerce : String → Joi.Coerced)
    (m : Mongo σ) (req : Request) (s : σ) (hbody : req.body ≠ .undefined)
    (hlacks : ∀ props, req.body = .obj props → props.lookup "courseName" = none) :
    (∃ text : String,
        (postCourse coerce m req s).answers 400 (.json (.obj [("message", .str text)])) ∧
        (putCourse coerce m req s).answers 400 (.json (.obj [("message", .str text)]))) ∧
    (postCourse coerce m req s).trace = [] ∧ (postCourse coerce m req s).state = s ∧
    (putCourse coerce m req s).trace = [] ∧ (putCourse coerce m req s).state = s := by
  have hv : ∃ text : String, validateCourse coerce req =
      { responses := [⟨400, .json (.obj [("message", .str text)])⟩], thrown := none,
        calledNext := false } := by
    obtain ⟨id, body⟩ := req
    cases body
    case undefined => exact absurd rfl hbody
    case obj props =>
      have h := hlacks props rfl
      exact ⟨_, by simp [validateCourse, validate, Joi.courseSchema, h, Joi.firstOf,
        Joi.string, Joi.absent, Val.message]; rfl⟩
    all_goals exact ⟨_, by simp [validateCourse, validate, Joi.courseSchema, Val.message]; rfl⟩
  obtain ⟨text, hv⟩ := hv
  refine ⟨⟨text, ?_, ?_⟩, ?_, ?_, ?_, ?_⟩ <;>
    simp [postCourse, putCourse, route, hv, Run.answers]

/-- C8 (amended) at a concrete input: a course without its name is answered 400
on both routes and nothing is called. -/
theorem missing_courseName_rejected_witness :
    (∃ text : String,
        (postCourse Joi.digitsCoerce (scripted sampleScript)
            ⟨sampleId, .obj [("courseCode", .str "CSE101"), ("credits", .num 3)]⟩ ()).answers
          400 (.json (.obj [("message", .str text)])) ∧
        (putCourse Joi.digitsCoerce (scripted sampleScript)
            ⟨sampleId, .obj [("courseCode", .str "CSE101"), ("credits", .num 3)]⟩ ()).answers
          400 (.json (.obj [("message", .str text)]))) ∧
    (postCourse Joi.digitsCoerce (scripted sampleScript)
        ⟨sampleId, .obj [("courseCode", .str "CSE101"), ("credits", .num 3)]⟩ ()).trace = [] ∧
    (postCourse Joi.digitsCoerce (scripted sampleScript)
        ⟨sampleId, .obj [("courseCode", .str "CSE101"), ("credits", .num 3)]⟩ ()).state = () ∧
    (putCourse Joi.digitsCoerce (scripted sampleScript)
        ⟨sampleId, .obj [("courseCode", .str "CSE101"), ("credits", .num 3)]⟩ ()).trace = [] ∧
    (putCourse Joi.digitsCoerce (scripted sampleScript)
        ⟨sampleId, .obj [("courseCode", .str "CSE101"), ("credits", .num 3)]⟩ ()).state = () :=
  missing_courseName_rejected Joi.digitsCoerce (scripted sampleScript)
    ⟨sampleId, .obj [("courseCode", .str "CSE101"), ("credits", .num 3)]⟩ ()
    (fun h => Val.noConfusion h)
    (fun props h => by
      have hp : props = [("courseCode", .str "CSE101"), ("credits", .num 3)] :=
        (Val.obj.inj h).symm
      subst hp
      rfl)

/-- C8, the claim as written fails: a request without a body (`req.body` is
`undefined`) has no `courseName`, yet `courseSchema` is not `required()` and
lets it through, so `POST /courses` runs `createCourse` and
`PUT /courses/:id` runs `updateCourse`; each throws on reading
`req.body.courseName` and the request is answered 500, not 400. No driver call
is made. -/
theorem missing_body_reaches_controller :
    (∀ props, Val.undefined = .obj props → props.lookup "courseName" = none) ∧
    (validateCourse Joi.digitsCoerce ⟨sampleId, .undefined⟩).calledNext = true ∧
    (postCourse Joi.digitsCoerce (scripted sampleScript) ⟨sampleId, .undefined⟩ ()).answers
        500 (.json (.obj [("message",
          .str "Cannot read properties of undefined (reading 'courseName')")])) ∧
    (postCourse Joi.digitsCoerce (scripted sampleScript) ⟨sampleId, .undefined⟩ ()).trace =
        [.controller "createCourse"] ∧
    (putCourse Joi.digitsCoerce (scripted sampleScript) ⟨sampleId, .undefined⟩ ()).answers
        500 (.json (.obj [("message",
          .str "Cannot read properties of undefined (reading 'courseName')")])) ∧
    (putCourse Joi.digitsCoerce (scripted sampleScript) ⟨sampleId, .undefined⟩ ()).trace =
        [.controller "updateCourse"] :=
  ⟨fun _ h => Val.noConfusion h, rfl, ⟨rfl, rfl⟩, rfl, ⟨rfl, rfl⟩, rfl⟩

/-- C9 (amended): the course schema accepts a body exactly when the body is
`undefined`, or it is an object with no key outside the six of the schema in
which courseName is a string of length 1 to 200, courseCode a string of length
3 to 20, credits an integer from 1 to 6 or a string that the number conversion
turns into one, department a string of length 1 to 100, description absent or
a string of length 10 to 1000, and prerequisites absent or an array of strings
of length 3 to 20 each (lengths in UTF-16 code units). -/
theorem courseSchema_accepts_iff (coerce : String → Joi.Coerced) (body : Val) :
    Joi.courseSchema coerce body = none ↔
      body = .undefined ∨
      ((∃ props, body = .obj props ∧ ∀ p ∈ props, p.1 ∈ Joi.courseKeys) ∧
        (body.field "courseName").isStringOf 1 200 = true ∧
        (body.field "courseCode").isStringOf 3 20 = true ∧
        ((body.field "credits").isIntegerOf 1 6 = true ∨
          ∃ s q, body.field "credits" = .str s ∧ coerce s = .value q ∧
            (Val.num q).isIntegerOf 1 6 = true) ∧
        (body.field "department").isStringOf 1 100 = true ∧
        (body.field "description" = .undefined ∨
          (body.field "description").isStringOf 10 1000 = true) ∧
        (body.field "prerequisites" = .undefined ∨
          ∃ xs, body.field "prerequisites" = .arr xs ∧
            ∀ x ∈ xs, x.isStringOf 3 20 = true)) := by
  cases body
  case obj props =>
    have hmatch : Joi.courseSchema coerce (.obj props) = none ↔
        Joi.firstOf [
          Joi.string 1 200 true "courseName" ((props.lookup "courseName").getD .undefined),
          Joi.string 3 20 true "courseCode" ((props.lookup "courseCode").getD .undefined),
          Joi.integer coerce 1 6 true "credits" ((props.lookup "credits").getD .undefined),
          Joi.string 1 100 true "department" ((props.lookup "department").getD .undefined),
          Joi.string 10 1000 false "description"
            ((props.lookup "description").getD .undefined),
          Joi.stringArray 3 20 false "prerequisites"
            ((props.lookup "prerequisites").getD .undefined),
          Joi.unknownKey props] = none := by
      simp only [Joi.courseSchema]
      split <;> simp_all
    rw [hmatch, Joi.firstOf_eq_none]
    simp only [List.mem_cons, List.mem_singleton, List.not_mem_nil, or_false, forall_eq_or_imp,
      forall_eq, Joi.string_eq_none, Joi.integer_eq_none, Joi.stringArray_eq_none,
      Joi.unknownKey_eq_none, Val.field]
    simp
    tauto
  all_goals simp [Joi.courseSchema, Val.field, Val.isStringOf]

/-- C9, the claim as written fails: with credits the string `'3'` the payload
is accepted, although its credits is not an integer. -/
theorem courseSchema_accepts_string_credits :
    Joi.courseSchema Joi.digitsCoerce stringCreditsCourse = none ∧
      ¬ Spec.CourseValid stringCreditsCourse := by
  refine ⟨by decide, ?_⟩
  intro h
  have h3 := h.2.2.1
  simp [stringCreditsCourse, Val.field, List.lookup, Val.isIntegerOf] at h3

/-! ### The document handed to the database -/

theorem catchAll_trace {σ : Type} (fallback : String) (e : Val) (s : σ) (tr : List Event) :
    (catchAll fallback e s tr).trace = tr := by
  unfold catchAll
  cases e.get "message" <;> rfl

theorem Course.courseOf_eq_courseDocument (body doc : Val)
    (h : Course.courseOf body = .ok doc) : doc = Spec.courseDocument body := by
  cases body <;>
    simp [Course.courseOf, Val.get, bind, Except.bind, pure, Except.pure] at h <;>
    simp [← h, Spec.courseDocument, Val.field, Val.or, Val.truthy]

theorem Course.courseOf_ok (body : Val) (h1 : body ≠ .undefined) (h2 : body ≠ .null) :
    Course.courseOf body = .ok (Spec.courseDocument body) := by
  cases body <;>
    simp [Course.courseOf, Val.get, bind, Except.bind, pure, Except.pure,
      Spec.courseDocument, Val.field, Val.or, Val.truthy] at h1 h2 ⊢

/-- C10 (amended): every document `createCourse` passes to `insertOne`, and
every replacement `updateCourse` passes to `replaceOne`, is the object with
exactly the six keys courseName, courseCode, credits, department, description
and prerequisites, the first five holding what the body holds under them
(`undefined` when absent) and prerequisites holding the body's value when that
is truthy and the empty array otherwise; nothing else of the body is in it.
Whenever the body is neither `undefined` nor `null`, the id converts and the
database handle is available, that document is indeed passed. -/
theorem course_document_from_body {σ : Type} (m : Mongo σ) (req : Request) (s : σ) :
    (∀ doc, Event.insertOne "courses" doc ∈ (Course.createCourse m req s).trace →
        doc = Spec.courseDocument req.body) ∧
    (∀ id doc, Event.replaceOne "courses" id doc ∈ (Course.updateCourse m req s).trace →
        doc = Spec.courseDocument req.body) ∧
    (req.body ≠ .undefined → req.body ≠ .null → m.getDatabase s = .ok () →
        Event.insertOne "courses" (Spec.courseDocument req.body) ∈
          (Course.createCourse m req s).trace) ∧
    (∀ id, req.body ≠ .undefined → req.body ≠ .null → m.newObjectId req.id = .ok id →
        m.getDatabase s = .ok () →
        Event.replaceOne "courses" id (Spec.courseDocument req.body) ∈
          (Course.updateCourse m req s).trace) := by
  refine ⟨?_, ?_, ?_, ?_⟩
  · intro doc hmem
    unfold Course.createCourse at hmem
    cases hc : Course.courseOf req.body with
    | error err => simp [hc, catchAll_trace] at hmem
    | ok course =>
      have hdoc := Course.courseOf_eq_courseDocument _ _ hc
      cases hdb : m.getDatabase s with
      | error err => simp [hc, hdb, catchAll_trace] at hmem
      | ok u =>
        rcases hins : m.insertOne "courses" course s with ⟨r, s1⟩
        cases r with
        | error err =>
          simp [hc, hdb, hins, catchAll_trace] at hmem
          rw [hmem, hdoc]
        | ok response =>
          by_cases hack : response.acknowledged = true <;>
            simp [hc, hdb, hins, hack, respond] at hmem <;> rw [hmem, hdoc]
  · intro id doc hmem
    unfold Course.updateCourse at hmem
    cases hid : m.newObjectId req.id with
    | error err => simp [hid, catchAll_trace] at hmem
    | ok courseId =>
      cases hc : Course.courseOf req.body with
      | error err => simp [hid, hc, catchAll_trace] at hmem
      | ok course =>
        have hdoc := Course.courseOf_eq_courseDocument _ _ hc
        cases hdb : m.getDatabase s with
        | error err => simp [hid, hc, hdb, catchAll_trace] at hmem
        | ok u =>
          rcases hrep : m.replaceOne "courses" courseId course s with ⟨r, s1⟩
          cases r with
          | error err =>
            simp [hid, hc, hdb, hrep, catchAll_trace] at hmem
            rw [hmem.2, hdoc]
          | ok response =>
            by_cases hcount : response.modifiedCount > 0 <;>
              simp [hid, hc, hdb, hrep, hcount, respond] at hmem <;> rw [hmem.2, hdoc]
  · intro h1 h2 hdb
    have hc := Course.courseOf_ok req.body h1 h2
    unfold Course.createCourse
    rcases hins : m.insertOne "courses" (Spec.courseDocument req.body) s with ⟨r, s1⟩
    cases r with
    | error err => simp [hc, hdb, hins, catchAll_trace]
    | ok response =>
      by_cases hack : response.acknowledged = true <;> simp [hc, hdb, hins, hack, respond]
  · intro id h1 h2 hid hdb
    have hc := Course.courseOf_ok req.body h1 h2
    unfold Course.updateCourse
    rcases hrep : m.replaceOne "courses" id (Spec.courseDocument req.body) s with ⟨r, s1⟩
    cases r with
    | error err => simp [hid, hc, hdb, hrep, catchAll_trace]
    | ok response =>
      by_cases hcount : response.modifiedCount > 0 <;>
        simp [hid, hc, hdb, hrep, hcount, respond]

/-- C10 at a concrete input: from a body with an unknown key and no
prerequisites, `createCourse` and `updateCourse` pass the six-key document
without the unknown key and with empty prerequisites. -/
theorem course_document_from_body_witness :
    Event.insertOne "courses"
        (.obj [("courseName", .str "Intro to CS"), ("courseCode", .str "CSE101"),
          ("credits", .num 3), ("department", .str "CS"), ("description", .undefined),
          ("prerequisites", .arr [])]) ∈
      (Course.createCourse (scripted sampleScript) ⟨sampleId, extraFieldCourse⟩ ()).trace ∧
    Event.replaceOne "courses" (.oid sampleId)
        (.obj [("courseName", .str "Intro to CS"), ("courseCode", .str "CSE101"),
          ("credits", .num 3), ("department", .str "CS"), ("description", .undefined),
          ("prerequisites", .arr [])]) ∈
      (Course.updateCourse (scripted sampleScript) ⟨sampleId, extraFieldCourse⟩ ()).trace ∧
    sampleCourse = Spec.courseDocument sampleCourse :=
  ⟨(course_document_from_body (scripted sampleScript) ⟨sampleId, extraFieldCourse⟩ ()).2.2.1
      (fun h => Val.noConfusion h) (fun h => Val.noConfusion h) rfl,
   (course_document_from_body (scripted sampleScript) ⟨sampleId, extraFieldCourse⟩ ()).2.2.2
      (.oid sampleId) (fun h => Val.noConfusion h) (fun h => Val.noConfusion h) rfl rfl,
   (course_document_from_body (scripted sampleScript) ⟨sampleId, sampleCourse⟩ ()).1
      sampleCourse (List.Mem.tail _ (List.Mem.head _))⟩

/-- C10, the claim as written fails: from a body whose prerequisites is the
empty string, `createCourse` passes a document whose prerequisites is the empty
array, so that field is not copied unchanged although the body has it. -/
theorem createCourse_replaces_falsy_prerequisites :
    ∃ doc, Event.insertOne "courses" doc ∈
        (Course.createCourse (scripted sampleScript)
          ⟨sampleId, emptyPrerequisitesCourse⟩ ()).trace ∧
      ¬ Spec.CopiedUnchanged emptyPrerequisitesCourse doc := by
  refine ⟨Spec.courseDocument emptyPrerequisitesCourse,
    List.Mem.tail _ (List.Mem.head _), ?_⟩
  intro h
  have h1 := (h "prerequisites" (by simp [Joi.courseKeys])).2
  simp [Spec.courseDocument, emptyPrerequisitesCourse, Val.field, List.lookup,
    Val.truthy] at h1

/-! ### Listing -/

theorem catchAll_status {σ : Type} (fallback : String) (e : Val) (s : σ) (tr : List Event) :
    ∀ r ∈ (catchAll fallback e s tr).responses, r.status = 500 := by
  unfold catchAll
  cases e.get "message" <;> simp [respond]

/-- C13: whenever the handle is available and the query returns the documents
`docs`, `getAll` of either controller answers 200 with exactly `docs`, in that
order, as body (so an empty result gives 200 with `[]`); and whatever the
driver does, no response of `getAll` has status 404. -/
theorem getAll_returns_the_documents {σ : Type} (m : Mongo σ) (req : Request) (s : σ) :
    (∀ (docs : List Val) (s1 : σ), m.getDatabase s = .ok () →
        m.find "courses" none s = (.ok docs, s1) →
        (Course.getAll m req s).answers 200 (.json (.arr docs))) ∧
    (∀ (docs : List Val) (s1 : σ), m.getDatabase s = .ok () →
        m.find "semester" none s = (.ok docs, s1) →
        (Semester.getAll m req s).answers 200 (.json (.arr docs))) ∧
    (∀ r ∈ (Course.getAll m req s).responses, r.status ≠ 404) ∧
    (∀ r ∈ (Semester.getAll m req s).responses, r.status ≠ 404) := by
  refine ⟨?_, ?_, ?_, ?_⟩
  · intro docs s1 hdb hfind
    simp [Course.getAll, hdb, hfind, respond, Run.answers]
  · intro docs s1 hdb hfind
    simp [Semester.getAll, hdb, hfind, respond, Run.answers]
  · intro r hr
    unfold Course.getAll at hr
    cases hdb : m.getDatabase s with
    | error err =>
      rw [hdb] at hr
      have := catchAll_status _ _ _ _ r hr
      omega
    | ok u =>
      rcases hfind : m.find "courses" none s with ⟨res, s1⟩
      cases res with
      | error err =>
        simp only [hdb, hfind] at hr
        have := catchAll_status _ _ _ _ r hr
        omega
      | ok docs =>
        simp [hdb, hfind, respond] at hr
        simp [hr]
  · intro r hr
    unfold Semester.getAll at hr
    cases hdb : m.getDatabase s with
    | error err =>
      rw [hdb] at hr
      have := catchAll_status _ _ _ _ r hr
      omega
    | ok u =>
      rcases hfind : m.find "semester" none s with ⟨res, s1⟩
      cases res with
      | error err =>
        simp only [hdb, hfind] at hr
        have := catchAll_status _ _ _ _ r hr
        omega
      | ok docs =>
        simp [hdb, hfind, respond] at hr
        simp [hr]

/-- C13 at concrete inputs: the test suite's two courses come back in order,
and an empty store gives 200 with `[]` for both resources. -/
theorem getAll_returns_the_documents_witness :
    (Course.getAll
        (scripted { sampleScript with
          found := [.obj [("courseName", .str "Introduction to Computer Science"),
              ("courseCode", .str "CSE101")],
            .obj [("courseName", .str "Data Structures"), ("courseCode", .str "CSE102")]] })
        ⟨"", .undefined⟩ ()).answers 200
      (.json (.arr [.obj [("courseName", .str "Introduction to Computer Science"),
          ("courseCode", .str "CSE101")],
        .obj [("courseName", .str "Data Structures"), ("courseCode", .str "CSE102")]])) ∧
    (Course.getAll memory ⟨"", .undefined⟩ Store.empty).answers 200 (.json (.arr [])) ∧
    (Semester.getAll memory ⟨"", .undefined⟩ Store.empty).answers 200 (.json (.arr [])) :=
  ⟨(getAll_returns_the_documents
      (scripted { sampleScript with
        found := [.obj [("courseName", .str "Introduction to Computer Science"),
            ("courseCode", .str "CSE101")],
          .obj [("courseName", .str "Data Structures"), ("courseCode", .str "CSE102")]] })
      ⟨"", .undefined⟩ ()).1 _ () rfl rfl,
   (getAll_returns_the_documents memory ⟨"", .undefined⟩ Store.empty).1 [] Store.empty
      rfl rfl,
   (getAll_returns_the_documents memory ⟨"", .undefined⟩ Store.empty).2.1 [] Store.empty
      rfl rfl⟩

/-! ### The handlers as error boundaries -/

theorem catchAll_contained {σ : Type} (fallback : String) (e : Val) (s : σ)
    (tr : List Event) (he : Spec.IsError e) : Spec.Contained (catchAll fallback e s tr) := by
  obtain ⟨props, rfl, hmsg⟩ := he
  rcases hmsg with hnone | ⟨msg, hsome⟩
  · refine ⟨?_, ⟨500, .json (.obj [("message", .str fallback)])⟩, ?_, fun _ => ⟨fallback, rfl⟩⟩ <;>
      simp [catchAll, Val.get, hnone, respond, Val.message, Val.or, Val.truthy]
  · by_cases hm : msg = ""
    · refine ⟨?_, ⟨500, .json (.obj [("message", .str fallback)])⟩, ?_,
        fun _ => ⟨fallback, rfl⟩⟩ <;>
        simp [catchAll, Val.get, hsome, respond, Val.message, Val.or, Val.truthy, hm]
    · refine ⟨?_, ⟨500, .json (.obj [("message", .str msg)])⟩, ?_, fun _ => ⟨msg, rfl⟩⟩ <;>
        simp [catchAll, Val.get, hsome, respond, Val.message, Val.or, Val.truthy, hm]

theorem respond_contained {σ : Type} (status : Nat) (body : Body) (s : σ) (tr : List Event)
    (h : (status ≠ 404 ∧ status ≠ 500) ∨
      ∃ text : String, body = .json (.obj [("message", .str text)])) :
    Spec.Contained (respond status body s tr) := by
  refine ⟨rfl, ⟨status, body⟩, rfl, ?_⟩
  intro hs
  rcases h with ⟨h1, h2⟩ | h
  · rcases hs with hs | hs
    · exact absurd hs h1
    · exact absurd hs h2
  · exact h

theorem typeError_isError (base key : String) : Spec.IsError (Val.typeError base key) :=
  ⟨_, rfl, Or.inr ⟨_, rfl⟩⟩

theorem Course.courseOf_error (body e : Val) (h : Course.courseOf body = .error e) :
    Spec.IsError e := by
  cases body <;>
    simp [Course.courseOf, Val.get, bind, Except.bind, pure, Except.pure] at h <;>
    (rw [← h]; exact typeError_isError _ _)

theorem Semester.semesterOf_error (body e : Val) (h : Semester.semesterOf body = .error e) :
    Spec.IsError e := by
  cases body <;>
    simp [Semester.semesterOf, Val.get, bind, Except.bind, pure, Except.pure] at h <;>
    (rw [← h]; exact typeError_isError _ _)

theorem Course.course_getSingle_contained {σ : Type} (m : Mongo σ) (hm : Spec.RaisesErrors m)
    (req : Request) (s : σ) : Spec.Contained (Course.getSingle m req s) := by
  cases hid : m.newObjectId req.id with
  | error err =>
    simp only [Course.getSingle, hid]
    exact catchAll_contained _ _ _ _ (hm.1 _ _ hid)
  | ok id =>
    cases hdb : m.getDatabase s with
    | error err =>
      simp only [Course.getSingle, hid, hdb]
      exact catchAll_contained _ _ _ _ (hm.2.1 _ _ hdb)
    | ok u =>
      rcases hcall : m.find "courses" (some id) s with ⟨res, s1⟩
      cases res with
      | error err =>
        simp only [Course.getSingle, hid, hdb, hcall]
        exact catchAll_contained _ _ _ _ (hm.2.2.1 "courses" (some id) s err (by rw [hcall]))
      | ok docs =>
        cases docs with
        | nil =>
          simp only [Course.getSingle, hid, hdb, hcall]
          exact respond_contained _ _ _ _ (Or.inr ⟨_, rfl⟩)
        | cons d rest =>
          simp only [Course.getSingle, hid, hdb, hcall]
          exact respond_contained 200 _ _ _ (Or.inl (by decide))

theorem Course.course_getAll_contained {σ : Type} (m : Mongo σ) (hm : Spec.RaisesErrors m)
    (req : Request) (s : σ) : Spec.Contained (Course.getAll m req s) := by
  cases hdb : m.getDatabase s with
  | error err =>
    simp only [Course.getAll, hdb]
    exact catchAll_contained _ _ _ _ (hm.2.1 _ _ hdb)
  | ok u =>
    rcases hcall : m.find "courses" none s with ⟨res, s1⟩
    cases res with
    | error err =>
      simp only [Course.getAll, hdb, hcall]
      exact catchAll_contained _ _ _ _ (hm.2.2.1 "courses" none s err (by rw [hcall]))
    | ok docs =>
      simp only [Course.getAll, hdb, hcall]
      exact respond_contained 200 _ _ _ (Or.inl (by decide))

theorem Course.createCourse_contained {σ : Type} (m : Mongo σ) (hm : Spec.RaisesErrors m)
    (req : Request) (s : σ) : Spec.Contained (Course.createCourse m req s) := by
  cases hdoc : Course.courseOf req.body with
  | error err =>
    simp only [Course.createCourse, hdoc]
    exact catchAll_contained _ _ _ _ (Course.courseOf_error _ _ hdoc)
  | ok doc =>
    cases hdb : m.getDatabase s with
    | error err =>
      simp only [Course.createCourse, hdoc, hdb]
      exact catchAll_contained _ _ _ _ (hm.2.1 _ _ hdb)
    | ok u =>
      rcases hcall : m.insertOne "courses" doc s with ⟨res, s1⟩
      cases res with
      | error err =>
        simp only [Course.createCourse, hdoc, hdb, hcall]
        exact catchAll_contained _ _ _ _
          (hm.2.2.2.2.1 "courses" doc s err (by rw [hcall]))
      | ok response =>
        simp only [Course.createCourse, hdoc, hdb, hcall]
        split <;>
        first
          | exact respond_contained _ _ _ _ (Or.inl (by decide))
          | exact respond_contained _ _ _ _ (Or.inr ⟨_, rfl⟩)

theorem Course.updateCourse_contained {σ : Type} (m : Mongo σ) (hm : Spec.RaisesErrors m)
    (req : Request) (s : σ) : Spec.Contained (Course.updateCourse m req s) := by
  cases hid : m.newObjectId req.id with
  | error err =>
    simp only [Course.updateCourse, hid]
    exact catchAll_contained _ _ _ _ (hm.1 _ _ hid)
  | ok id =>
    cases hdoc : Course.courseOf req.body with
    | error err =>
      simp only [Course.updateCourse, hid, hdoc]
      exact catchAll_contained _ _ _ _ (Course.courseOf_error _ _ hdoc)
    | ok doc =>
      cases hdb : m.getDatabase s with
      | error err =>
        simp only [Course.updateCourse, hid, hdoc, hdb]
        exact catchAll_contained _ _ _ _ (hm.2.1 _ _ hdb)
      | ok u =>
        rcases hcall : m.replaceOne "courses" id doc s with ⟨res, s1⟩
        cases res with
        | error err =>
          simp only [Course.updateCourse, hid, hdoc, hdb, hcall]
          exact catchAll_contained _ _ _ _
            (hm.2.2.2.2.2.1 "courses" id doc s err (by rw [hcall]))
        | ok response =>
          simp only [Course.updateCourse, hid, hdoc, hdb, hcall]
          split <;>
          first
          | exact respond_contained _ _ _ _ (Or.inl (by decide))
          | exact respond_contained _ _ _ _ (Or.inr ⟨_, rfl⟩)

theorem Course.deleteCourse_contained {σ : Type} (m : Mongo σ) (hm : Spec.RaisesErrors m)
    (req : Request) (s : σ) : Spec.Contained (Course.deleteCourse m req s) := by
  cases hid : m.newObjectId req.id with
  | error err =>
    simp only [Course.deleteCourse, hid]
    exact catchAll_contained _ _ _ _ (hm.1 _ _ hid)
  | ok id =>
    cases hdb : m.getDatabase s with
    | error err =>
      simp only [Course.deleteCourse, hid, hdb]
      exact catchAll_contained _ _ _ _ (hm.2.1 _ _ hdb)
    | ok u =>
      rcases hcall : m.deleteOne "courses" id s with ⟨res, s1⟩
      cases res with
      | error err =>
        simp only [Course.deleteCourse, hid, hdb, hcall]
        exact catchAll_contained _ _ _ _
          (hm.2.2.2.2.2.2 "courses" id s err (by rw [hcall]))
      | ok response =>
        simp only [Course.deleteCourse, hid, hdb, hcall]
        split <;>
        first
          | exact respond_contained _ _ _ _ (Or.inl (by decide))
          | exact respond_contained _ _ _ _ (Or.inr ⟨_, rfl⟩)

theorem Semester.semester_getAll_contained {σ : Type} (m : Mongo σ) (hm : Spec.RaisesErrors m)
    (req : Request) (s : σ) : Spec.Contained (Semester.getAll m req s) := by
  cases hdb : m.getDatabase s with
  | error err =>
    simp only [Semester.getAll, hdb]
    exact catchAll_contained _ _ _ _ (hm.2.1 _ _ hdb)
  | ok u =>
    rcases hcall : m.find "semester" none s with ⟨res, s1⟩
    cases res with
    | error err =>
      simp only [Semester.getAll, hdb, hcall]
      exact catchAll_contained _ _ _ _ (hm.2.2.1 "semester" none s err (by rw [hcall]))
    | ok docs =>
      simp only [Semester.getAll, hdb, hcall]
      exact respond_contained 200 _ _ _ (Or.inl (by decide))

theorem Semester.semester_getSingle_contained {σ : Type} (m : Mongo σ) (hm : Spec.RaisesErrors m)
    (req : Request) (s : σ) : Spec.Contained (Semester.getSingle m req s) := by
  cases hid : m.newObjectId req.id with
  | error err =>
    simp only [Semester.getSingle, hid]
    exact catchAll_contained _ _ _ _ (hm.1 _ _ hid)
  | ok id =>
    cases hdb : m.getDatabase s with
    | error err =>
      simp only [Semester.getSingle, hid, hdb]
      exact catchAll_contained _ _ _ _ (hm.2.1 _ _ hdb)
    | ok u =>
      rcases hcall : m.findOne "semester" id s with ⟨res, s1⟩
      cases res with
      | error err =>
        simp only [Semester.getSingle, hid, hdb, hcall]
        exact catchAll_contained _ _ _ _
          (hm.2.2.2.1 "semester" id s err (by rw [hcall]))
      | ok doc =>
        simp only [Semester.getSingle, hid, hdb, hcall]
        split <;>
        first
          | exact respond_contained _ _ _ _ (Or.inl (by decide))
          | exact respond_contained _ _ _ _ (Or.inr ⟨_, rfl⟩)

theorem Semester.createSemester_contained {σ : Type} (m : Mongo σ) (hm : Spec.RaisesErrors m)
    (req : Request) (s : σ) : Spec.Contained (Semester.createSemester m req s) := by
  cases hdoc : Semester.semesterOf req.body with
  | error err =>
    simp only [Semester.createSemester, hdoc]
    exact catchAll_contained _ _ _ _ (Semester.semesterOf_error _ _ hdoc)
  | ok doc =>
    cases hdb : m.getDatabase s with
    | error err =>
      simp only [Semester.createSemester, hdoc, hdb]
      exact catchAll_contained _ _ _ _ (hm.2.1 _ _ hdb)
    | ok u =>
      rcases hcall : m.insertOne "semester" doc s with ⟨res, s1⟩
      cases res with
      | error err =>
        simp only [Semester.createSemester, hdoc, hdb, hcall]
        exact catchAll_contained _ _ _ _
          (hm.2.2.2.2.1 "semester" doc s err (by rw [hcall]))
      | ok response =>
        simp only [Semester.createSemester, hdoc, hdb, hcall]
        split <;>
        first
          | exact respond_contained _ _ _ _ (Or.inl (by decide))
          | exact respond_contained _ _ _ _ (Or.inr ⟨_, rfl⟩)

theorem Semester.updateSemester_contained {σ : Type} (m : Mongo σ) (hm : Spec.RaisesErrors m)
    (req : Request) (s : σ) : Spec.Contained (Semester.updateSemester m req s) := by
  cases hid : m.newObjectId req.id with
  | error err =>
    simp only [Semester.updateSemester, hid]
    exact catchAll_contained _ _ _ _ (hm.1 _ _ hid)
  | ok id =>
    cases hdoc : Semester.semesterOf req.body with
    | error err =>
      simp only [Semester.updateSemester, hid, hdoc]
      exact catchAll_contained _ _ _ _ (Semester.semesterOf_error _ _ hdoc)
    | ok doc =>
      cases hdb : m.getDatabase s with
      | error err =>
        simp only [Semester.updateSemester, hid, hdoc, hdb]
        exact catchAll_contained _ _ _ _ (hm.2.1 _ _ hdb)
      | ok u =>
        rcases hcall : m.replaceOne "semester" id doc s with ⟨res, s1⟩
        cases res with
        | error err =>
          simp only [Semester.updateSemester, hid, hdoc, hdb, hcall]
          exact catchAll_contained _ _ _ _
            (hm.2.2.2.2.2.1 "semester" id doc s err (by rw [hcall]))
        | ok response =>
          simp only [Semester.updateSemester, hid, hdoc, hdb, hcall]
          split <;>
          first
          | exact respond_contained _ _ _ _ (Or.inl (by decide))
          | exact respond_contained _ _ _ _ (Or.inr ⟨_, rfl⟩)

theorem Semester.deleteSemester_contained {σ : Type} (m : Mongo σ) (hm : Spec.RaisesErrors m)
    (req : Request) (s : σ) : Spec.Contained (Semester.deleteSemester m req s) := by
  cases hid : m.newObjectId req.id with
  | error err =>
    simp only [Semester.deleteSemester, hid]
    exact catchAll_contained _ _ _ _ (hm.1 _ _ hid)
  | ok id =>
    cases hdb : m.getDatabase s with
    | error err =>
      simp only [Semester.deleteSemester, hid, hdb]
      exact catchAll_contained _ _ _ _ (hm.2.1 _ _ hdb)
    | ok u =>
      rcases hcall : m.deleteOne "semester" id s with ⟨res, s1⟩
      cases res with
      | error err =>
        simp only [Semester.deleteSemester, hid, hdb, hcall]
        exact catchAll_contained _ _ _ _
          (hm.2.2.2.2.2.2 "semester" id s err (by rw [hcall]))
      | ok response =>
        simp only [Semester.deleteSemester, hid, hdb, hcall]
        split <;>
        first
          | exact respond_contained _ _ _ _ (Or.inl (by decide))
          | exact respond_contained _ _ _ _ (Or.inr ⟨_, rfl⟩)

theorem objectIdOfString_error (id : String) (e : Val)
    (h : objectIdOfString id = .error e) : Spec.IsError e := by
  unfold objectIdOfString at h
  split at h
  · cases h
  · cases h
    exact ⟨_, rfl, Or.inr ⟨_, rfl⟩⟩

theorem errorOf_isError (msg : String) : Spec.IsError (errorOf msg) :=
  ⟨_, rfl, Or.inr ⟨_, rfl⟩⟩

/-- C14: let the driver raise only error objects (objects whose `message`, if
any, is a string). Then for each of the ten handlers, every request and every
store state, whatever the driver returns or raises, the handler raises nothing
to its caller and writes exactly one response, and if that response has status
404 or 500 its body is `{ message: <string> }`. -/
theorem handlers_are_error_boundaries {σ : Type} (m : Mongo σ)
    (hm : Spec.RaisesErrors m) (req : Request) (s : σ) :
    ∀ h ∈ handlers, (h m req s).thrown = none ∧
      ∃ resp, (h m req s).responses = [resp] ∧
        (resp.status = 404 ∨ resp.status = 500 →
          ∃ text : String, resp.body = .json (.obj [("message", .str text)])) := by
  intro h hmem
  simp only [handlers, List.mem_cons, List.mem_singleton, List.not_mem_nil, or_false] at hmem
  rcases hmem with rfl | rfl | rfl | rfl | rfl | rfl | rfl | rfl | rfl | rfl
  · exact Course.course_getAll_contained m hm req s
  · exact Course.course_getSingle_contained m hm req s
  · exact Course.createCourse_contained m hm req s
  · exact Course.updateCourse_contained m hm req s
  · exact Course.deleteCourse_contained m hm req s
  · exact Semester.semester_getAll_contained m hm req s
  · exact Semester.semester_getSingle_contained m hm req s
  · exact Semester.createSemester_contained m hm req s
  · exact Semester.updateSemester_contained m hm req s
  · exact Semester.deleteSemester_contained m hm req s

/-- C14 at a concrete input: with a driver whose every call fails with
`DB connection error`, `updateCourse` writes one response and raises nothing. -/
theorem handlers_are_error_boundaries_witness :
    Spec.RaisesErrors (noDatabase (errorOf "DB connection error")) ∧
    (Course.updateCourse (noDatabase (errorOf "DB connection error"))
        ⟨sampleId, .obj []⟩ ()).thrown = none ∧
    ∃ resp, (Course.updateCourse (noDatabase (errorOf "DB connection error"))
        ⟨sampleId, .obj []⟩ ()).responses = [resp] ∧
      (resp.status = 404 ∨ resp.status = 500 →
        ∃ text : String, resp.body = .json (.obj [("message", .str text)])) :=
  have hm : Spec.RaisesErrors (noDatabase (errorOf "DB connection error")) :=
    ⟨fun id e h => objectIdOfString_error id e h,
     fun _ e h => by cases h; exact errorOf_isError _,
     fun _ _ _ e h => by cases h; exact errorOf_isError _,
     fun _ _ _ e h => by cases h; exact errorOf_isError _,
     fun _ _ _ e h => by cases h; exact errorOf_isError _,
     fun _ _ _ _ e h => by cases h; exact errorOf_isError _,
     fun _ _ _ e h => by cases h; exact errorOf_isError _⟩
  ⟨hm, handlers_are_error_boundaries (noDatabase (errorOf "DB connection error")) hm
    ⟨sampleId, .obj []⟩ () Course.updateCourse
    (List.Mem.tail _ (List.Mem.tail _ (List.Mem.tail _ (List.Mem.head _))))⟩

/-! ### What is stored after validation -/

/-- C15, the code at the failing input: the body with credits `'3'` passes
`validateCourse`, `POST /courses` answers 201, and the document then held by
the store has the string `'3'` as credits, which is not an integer from 1 to
6. -/
theorem string_credits_stored_unconverted :
    (validateCourse Joi.digitsCoerce ⟨"", stringCreditsCourse⟩).calledNext = true ∧
    (postCourse Joi.digitsCoerce memory ⟨"", stringCreditsCourse⟩ Store.empty).answers 201
        (.json (.obj [("acknowledged", .bool true), ("insertedId", .oid (hexOf 0))])) ∧
    (postCourse Joi.digitsCoerce memory ⟨"", stringCreditsCourse⟩ Store.empty).state.docs =
        [("courses", .obj [("_id", .oid (hexOf 0)), ("courseName", .str "Intro to CS"),
          ("courseCode", .str "CSE101"), ("credits", .str "3"), ("department", .str "CS"),
          ("description", .undefined), ("prerequisites", .arr [])])] ∧
    (Val.str "3").isIntegerOf 1 6 = false :=
  ⟨by decide, ⟨by rfl, by rfl⟩, by rfl, by rfl⟩

/-! ### Identifiers of the store -/

theorem hexDigit_spec : ∀ d, d < 16 →
    isHexDigit (hexDigit d) = true ∧ (hexDigit d).toNat < 65536 ∧
      Char.toLower (hexDigit d) = hexDigit d := by
  decide

theorem hexDigit_toNat : ∀ d, d < 16 →
    (hexDigit d).toNat = if d < 10 then 48 + d else 87 + d := by
  decide

theorem hexDigit_inj (a : Nat) (ha : a < 16) (b : Nat) (hb : b < 16)
    (h : hexDigit a = hexDigit b) : a = b := by
  have h1 := hexDigit_toNat a ha
  have h2 := hexDigit_toNat b hb
  rw [h, h2] at h1
  split_ifs at h1 <;> omega

theorem hexDigits_length (w n : Nat) : (hexDigits w n).length = w := by
  induction w generalizing n with
  | zero => rfl
  | succ w ih => simp [hexDigits, ih]

theorem hexDigits_spec (w n : Nat) : ∀ c ∈ hexDigits w n,
    isHexDigit c = true ∧ c.toNat < 65536 ∧ Char.toLower c = c := by
  induction w generalizing n with
  | zero => simp [hexDigits]
  | succ w ih =>
    intro c hc
    simp only [hexDigits, List.mem_append, List.mem_singleton] at hc
    rcases hc with hc | rfl
    · exact ih _ c hc
    · exact hexDigit_spec _ (Nat.mod_lt n (Nat.succ_pos 15))

theorem hexDigits_inj (w a b : Nat) (h : hexDigits w a = hexDigits w b) :
    a % 16 ^ w = b % 16 ^ w := by
  induction w generalizing a b with
  | zero => simp [Nat.mod_one]
  | succ w ih =>
    simp only [hexDigits] at h
    have hlen : (hexDigits w (a / 16)).length = (hexDigits w (b / 16)).length := by
      simp [hexDigits_length]
    obtain ⟨h1, h2⟩ := List.append_inj h hlen
    have hd : a % 16 = b % 16 :=
      hexDigit_inj _ (Nat.mod_lt a (Nat.succ_pos 15)) _ (Nat.mod_lt b (Nat.succ_pos 15))
        (List.singleton_inj.mp h2)
    have hq := ih _ _ h1
    rw [pow_succ, Nat.mul_comm, Nat.mod_mul, Nat.mod_mul, hd, hq]

theorem hexOf_inj (a b : Nat) (ha : a < 16 ^ 24) (hb : b < 16 ^ 24)
    (h : hexOf a = hexOf b) : a = b := by
  have h1 : hexDigits 24 a = hexDigits 24 b := congrArg String.data h
  have h2 := hexDigits_inj 24 a b h1
  rwa [Nat.mod_eq_of_lt ha, Nat.mod_eq_of_lt hb] at h2

theorem objectIdOfString_hexOf (n : Nat) :
    objectIdOfString (hexOf n) = .ok (.oid (hexOf n)) := by
  have hspec := hexDigits_spec 24 n
  have hlen : jsLength (hexOf n) = 24 := by
    have : ∀ l : List Char, (∀ c ∈ l, c.toNat < 65536) →
        (l.map (fun c => if c.toNat < 65536 then 1 else 2)).sum = l.length := by
      intro l hl
      induction l with
      | nil => rfl
      | cons c rest ih =>
        have hc := hl c (List.mem_cons_self _ _)
        have := ih (fun c hc => hl c (List.mem_cons_of_mem _ hc))
        simp [hc, this]
        omega
    simp only [jsLength, hexOf]
    rw [this _ (fun c hc => (hspec c hc).2.1), hexDigits_length]
  have hall : (hexOf n).data.all isHexDigit = true := by
    simp only [hexOf, List.all_eq_true]
    exact fun c hc => (hspec c hc).1
  have hlower : String.mk ((hexOf n).data.map Char.toLower) = hexOf n := by
    have : ∀ l : List Char, (∀ c ∈ l, Char.toLower c = c) → l.map Char.toLower = l := by
      intro l hl
      induction l with
      | nil => rfl
      | cons c rest ih =>
        simp [hl c (List.mem_cons_self _ _),
          ih (fun c hc => hl c (List.mem_cons_of_mem _ hc))]
    simp only [hexOf]
    rw [this _ (fun c hc => (hspec c hc).2.2)]
  simp [objectIdOfString, hlen, hall, hlower]

/-! ### The store -/

theorem Store.idMatches_oid (h : String) (doc : Val) :
    Store.idMatches (.oid h) doc = true ↔ doc.field "_id" = .oid h := by
  unfold Store.idMatches
  cases doc.field "_id" <;> simp

theorem Store.selects_oid (c h : String) (entry : String × Val) :
    Store.selects c (some (.oid h)) entry = true ↔
      entry.1 = c ∧ entry.2.field "_id" = .oid h := by
  simp [Store.selects, Store.idMatches_oid]

theorem Store.replaceFirst_some (c : String) (id : Val) (props : List (String × Val))
    (l : List (String × Val)) (h : ∃ entry ∈ l, Store.selects c (some id) entry = true) :
    ∃ out, Store.replaceFirst c id props l = some out := by
  induction l with
  | nil => simp at h
  | cons entry rest ih =>
    by_cases hsel : Store.selects c (some id) entry = true
    · exact ⟨(c, Store.withId (entry.2.field "_id") props) :: rest,
        by simp [Store.replaceFirst, hsel]⟩
    · obtain ⟨e, he, hes⟩ := h
      rcases List.mem_cons.mp he with rfl | hmem
      · exact absurd hes hsel
      · obtain ⟨out, hout⟩ := ih ⟨e, hmem, hes⟩
        exact ⟨entry :: out, by simp [Store.replaceFirst, hsel, hout]⟩

theorem Store.replaceFirst_none (c : String) (id : Val) (props : List (String × Val))
    (l : List (String × Val)) (h : ∀ entry ∈ l, Store.selects c (some id) entry = false) :
    Store.replaceFirst c id props l = none := by
  induction l with
  | nil => rfl
  | cons entry rest ih =>
    have h1 := h entry (List.mem_cons_self _ _)
    have h2 := ih (fun e he => h e (List.mem_cons_of_mem _ he))
    simp [Store.replaceFirst, h1, h2]

theorem Joi.courseSchema_prerequisites (coerce : String → Joi.Coerced)
    (props : List (String × Val)) (h : Joi.courseSchema coerce (.obj props) = none) :
    (Val.obj props).field "prerequisites" = .undefined ∨
      ∃ xs, (Val.obj props).field "prerequisites" = .arr xs := by
  have hfirst : Joi.firstOf [
      Joi.string 1 200 true "courseName" ((props.lookup "courseName").getD .undefined),
      Joi.string 3 20 true "courseCode" ((props.lookup "courseCode").getD .undefined),
      Joi.integer coerce 1 6 true "credits" ((props.lookup "credits").getD .undefined),
      Joi.string 1 100 true "department" ((props.lookup "department").getD .undefined),
      Joi.string 10 1000 false "description" ((props.lookup "description").getD .undefined),
      Joi.stringArray 3 20 false "prerequisites"
        ((props.lookup "prerequisites").getD .undefined),
      Joi.unknownKey props] = none := by
    simp only [Joi.courseSchema] at h
    split at h <;> simp_all
  have harr := (Joi.firstOf_eq_none _).mp hfirst
    (Joi.stringArray 3 20 false "prerequisites"
      ((props.lookup "prerequisites").getD .undefined)) (by simp)
  rcases (Joi.stringArray_eq_none 3 20 "prerequisites" _).mp harr with hu | ⟨xs, hxs, _⟩
  · exact Or.inl hu
  · exact Or.inr ⟨xs, hxs⟩

theorem Spec.validPayload_shape (coerce : String → Joi.Coerced) (p : Val)
    (hp : Spec.ValidPayload coerce p) :
    (∃ props, p = .obj props) ∧
      (p.field "prerequisites" = .undefined ∨ ∃ xs, p.field "prerequisites" = .arr xs) := by
  rcases hp with hv | ⟨hne, hacc⟩
  · refine ⟨?_, ?_⟩
    · have h1 := hv.1
      cases p <;> simp [Val.field, Val.isStringOf] at h1
      exact ⟨_, rfl⟩
    · rcases hv.2.2.2.2.2 with hu | ⟨xs, hxs, _⟩
      · exact Or.inl hu
      · exact Or.inr ⟨xs, hxs⟩
  · cases p
    case undefined => exact absurd rfl hne
    case obj props => exact ⟨⟨_, rfl⟩, Joi.courseSchema_prerequisites coerce props hacc⟩
    all_goals simp [Joi.courseSchema] at hacc

theorem Spec.courseDocument_copied (p : Val)
    (hpre : p.field "prerequisites" = .undefined ∨ ∃ xs, p.field "prerequisites" = .arr xs)
    (id : Val) (props : List (String × Val))
    (hdoc : Spec.courseDocument p = .obj props) :
    Spec.CopiedUnchanged p (Store.withId id props) := by
  have hprops : props = [("courseName", p.field "courseName"),
      ("courseCode", p.field "courseCode"), ("credits", p.field "credits"),
      ("department", p.field "department"), ("description", p.field "description"),
      ("prerequisites",
        if (p.field "prerequisites").truthy then p.field "prerequisites" else .arr [])] :=
    (Val.obj.inj hdoc).symm
  subst hprops
  intro key hkey
  simp only [Joi.courseKeys, List.mem_cons, List.mem_singleton, List.not_mem_nil,
    or_false] at hkey
  rcases hkey with rfl | rfl | rfl | rfl | rfl | rfl
  · simp [Store.withId, Val.field, List.lookup]
  · simp [Store.withId, Val.field, List.lookup]
  · simp [Store.withId, Val.field, List.lookup]
  · simp [Store.withId, Val.field, List.lookup]
  · simp [Store.withId, Val.field, List.lookup]
  · rcases hpre with hu | ⟨xs, hxs⟩
    · simp [Store.withId, Val.field, List.lookup, hu, Val.truthy] at hu ⊢
      simp [hu, Val.truthy]
    · simp [Store.withId, Val.field, List.lookup, hxs, Val.truthy] at hxs ⊢
      simp [hxs, Val.truthy]

theorem Store.fresh_of_wellFormed (s : Store) (hs : s.WellFormed) :
    ∀ entry ∈ s.docs, entry.2.field "_id" ≠ .oid (hexOf s.nextId) := by
  intro entry hmem heq
  obtain ⟨k, hk, hfield⟩ := hs.2 entry hmem
  rw [hfield] at heq
  have hhex : hexOf k = hexOf s.nextId := Val.oid.inj heq
  have := hexOf_inj k s.nextId (lt_trans hk hs.1) hs.1 hhex
  omega

theorem Course.createCourse_memory (s : Store) (p : Val) (anyId : String)
    (hconn : s.connected = true) (props : List (String × Val))
    (hdoc : Spec.courseDocument p = .obj props) (h1 : p ≠ .undefined) (h2 : p ≠ .null) :
    Course.createCourse memory ⟨anyId, p⟩ s =
      respond 201
        (.json (.obj [("acknowledged", .bool true), ("insertedId", .oid (hexOf s.nextId))]))
        { s with nextId := s.nextId + 1,
                 docs := s.docs ++ [("courses", Store.withId (.oid (hexOf s.nextId)) props)] }
        [.getDatabase, .insertOne "courses" (.obj props)] := by
  have hc := Course.courseOf_ok p h1 h2
  rw [hdoc] at hc
  simp [Course.createCourse, hc, memory, hconn, InsertOneResult.toVal]

theorem Course.getSingle_memory (s : Store) (h : String) (anyBody doc : Val)
    (rest : List Val) (hconn : s.connected = true)
    (hparse : objectIdOfString h = .ok (.oid h))
    (hfind : (s.docs.filter (Store.selects "courses" (some (.oid h)))).map (·.2) =
      doc :: rest) :
    (Course.getSingle memory ⟨h, anyBody⟩ s).answers 200 (.json doc) := by
  simp [Course.getSingle, memory, hparse, hconn, hfind, respond, Run.answers]

/-- C11: over the store model, for every connected well-formed store and every
valid course payload `p`, `createCourse` answers 201 with
`{ acknowledged: true, insertedId }` where `insertedId` is an identifier no
stored document has, and `getSingle` run next with that identifier answers 200
with a document that carries this identifier and whose six course fields are
those of `p` (prerequisites being the empty sequence if `p` has none). -/
theorem create_then_getSingle (coerce : String → Joi.Coerced) (s : Store) (p : Val)
    (anyId : String) (anyBody : Val) (hs : s.WellFormed) (hconn : s.connected = true)
    (hp : Spec.ValidPayload coerce p) :
    (Course.createCourse memory ⟨anyId, p⟩ s).answers 201
        (.json (.obj [("acknowledged", .bool true),
          ("insertedId", .oid (hexOf s.nextId))])) ∧
    (∀ entry ∈ s.docs, entry.2.field "_id" ≠ .oid (hexOf s.nextId)) ∧
    ∃ doc,
      (Course.getSingle memory ⟨hexOf s.nextId, anyBody⟩
        (Course.createCourse memory ⟨anyId, p⟩ s).state).answers 200 (.json doc) ∧
      doc.field "_id" = .oid (hexOf s.nextId) ∧
      Spec.CopiedUnchanged p doc := by
  obtain ⟨⟨props0, hobj⟩, hpre⟩ := Spec.validPayload_shape coerce p hp
  have h1 : p ≠ .undefined := by rw [hobj]; exact fun h => Val.noConfusion h
  have h2 : p ≠ .null := by rw [hobj]; exact fun h => Val.noConfusion h
  have hfresh := Store.fresh_of_wellFormed s hs
  obtain ⟨props, hdoc⟩ : ∃ props, Spec.courseDocument p = .obj props := ⟨_, rfl⟩
  have hcreate := Course.createCourse_memory s p anyId hconn props hdoc h1 h2
  refine ⟨?_, hfresh, Store.withId (.oid (hexOf s.nextId)) props, ?_, ?_, ?_⟩
  · rw [hcreate]
    exact ⟨rfl, rfl⟩
  · rw [hcreate]
    refine Course.getSingle_memory _ _ _ _ [] hconn (objectIdOfString_hexOf _) ?_
    have hold : s.docs.filter (Store.selects "courses" (some (.oid (hexOf s.nextId)))) = [] := by
      rw [List.filter_eq_nil_iff]
      intro entry hmem hsel
      exact hfresh entry hmem ((Store.selects_oid _ _ _).mp hsel).2
    have hnew : Store.selects "courses" (some (.oid (hexOf s.nextId)))
        ("courses", Store.withId (.oid (hexOf s.nextId)) props) = true :=
      (Store.selects_oid _ _ _).mpr ⟨rfl, rfl⟩
    simp only [respond, List.filter_append, hold, List.nil_append]
    rw [List.filter_cons_of_pos hnew]
    rfl
  · rfl
  · exact Spec.courseDocument_copied p hpre _ _ hdoc

/-- C11 at a concrete input: on a store that already holds one course, creating
the specification's scenario course and reading it back. -/
theorem create_then_getSingle_witness :
    oneCourseStore.WellFormed ∧ Spec.ValidPayload Joi.digitsCoerce scenarioCourse ∧
    (Course.createCourse memory ⟨"", scenarioCourse⟩ oneCourseStore).answers 201
        (.json (.obj [("acknowledged", .bool true),
          ("insertedId", .oid (hexOf oneCourseStore.nextId))])) ∧
    (∀ entry ∈ oneCourseStore.docs,
        entry.2.field "_id" ≠ .oid (hexOf oneCourseStore.nextId)) ∧
    ∃ doc,
      (Course.getSingle memory ⟨hexOf oneCourseStore.nextId, .undefined⟩
        (Course.createCourse memory ⟨"", scenarioCourse⟩ oneCourseStore).state).answers 200
          (.json doc) ∧
      doc.field "_id" = .oid (hexOf oneCourseStore.nextId) ∧
      Spec.CopiedUnchanged scenarioCourse doc :=
  have hs : oneCourseStore.WellFormed :=
    ⟨show (1 : Nat) < 16 ^ 24 by norm_num,
     fun entry hmem => ⟨0, Nat.zero_lt_one, by
       have h : entry = ("courses", Store.withId (.oid (hexOf 0))
           [("courseName", .str "Test Course"), ("courseCode", .str "TEST101"),
            ("credits", .num 3), ("department", .str "Computer Science"),
            ("description", .str "A test course"),
            ("prerequisites", .arr [.str "MATH101"])]) := List.mem_singleton.mp hmem
       rw [h]
       rfl⟩⟩
  have hp : Spec.ValidPayload Joi.digitsCoerce scenarioCourse :=
    Or.inl ⟨by decide, by decide, by decide, by decide, Or.inl rfl, Or.inl rfl⟩
  ⟨hs, hp, create_then_getSingle Joi.digitsCoerce oneCourseStore scenarioCourse ""
    .undefined hs rfl hp⟩

/-- C12: over the store model, for every connected store and every identifier
string that converts to the identifier `h`: if a stored course has identifier
`h`, `updateCourse` with a valid payload answers 204 with an empty body; if no
stored course has identifier `h`, `updateCourse` with any payload (a body that
is neither `undefined` nor `null`) answers 404 `Course not found`. -/
theorem update_stored_or_missing (coerce : String → Joi.Coerced) (s : Store)
    (idStr h : String) (p : Val) (hconn : s.connected = true)
    (hid : objectIdOfString idStr = .ok (.oid h)) :
    (Spec.ValidPayload coerce p →
      (∃ entry ∈ s.docs, entry.1 = "courses" ∧ entry.2.field "_id" = .oid h) →
      (Course.updateCourse memory ⟨idStr, p⟩ s).answers 204 .empty) ∧
    (p ≠ .undefined → p ≠ .null →
      (∀ entry ∈ s.docs, entry.1 = "courses" → entry.2.field "_id" ≠ .oid h) →
      (Course.updateCourse memory ⟨idStr, p⟩ s).answers 404
        (.json (.obj [("message", .str "Course not found")]))) := by
  obtain ⟨props, hdoc⟩ : ∃ props, Spec.courseDocument p = .obj props := ⟨_, rfl⟩
  refine ⟨?_, ?_⟩
  · intro hp hstored
    obtain ⟨⟨props0, hobj⟩, _⟩ := Spec.validPayload_shape coerce p hp
    have h1 : p ≠ .undefined := by rw [hobj]; exact fun h => Val.noConfusion h
    have h2 : p ≠ .null := by rw [hobj]; exact fun h => Val.noConfusion h
    have hc := Course.courseOf_ok p h1 h2
    rw [hdoc] at hc
    obtain ⟨entry, hmem, hcoll, hfield⟩ := hstored
    obtain ⟨out, hout⟩ := Store.replaceFirst_some "courses" (.oid h) props s.docs
      ⟨entry, hmem, (Store.selects_oid _ _ _).mpr ⟨hcoll, hfield⟩⟩
    simp [Course.updateCourse, memory, hid, hc, hconn, hout, respond, Run.answers]
  · intro h1 h2 hmissing
    have hc := Course.courseOf_ok p h1 h2
    rw [hdoc] at hc
    have hnone := Store.replaceFirst_none "courses" (.oid h) props s.docs (by
      intro entry hmem
      cases hsel : Store.selects "courses" (some (.oid h)) entry with
      | false => rfl
      | true =>
        have := (Store.selects_oid _ _ _).mp hsel
        exact absurd this.2 (hmissing entry hmem this.1))
    simp [Course.updateCourse, memory, hid, hc, hconn, hnone, respond, Run.answers,
      Val.message]

/-- C12 at concrete inputs: on the store holding one course, replacing that
course with the scenario payload gives 204, and the same request under an
identifier no course has gives 404. -/
theorem update_stored_or_missing_witness :
    (Course.updateCourse memory ⟨hexOf 0, scenarioCourse⟩ oneCourseStore).answers 204
        .empty ∧
    (Course.updateCourse memory ⟨sampleId, scenarioCourse⟩ oneCourseStore).answers 404
        (.json (.obj [("message", .str "Course not found")])) :=
  ⟨(update_stored_or_missing Joi.digitsCoerce oneCourseStore (hexOf 0) (hexOf 0)
      scenarioCourse rfl (objectIdOfString_hexOf 0)).1
      (Or.inl ⟨by decide, by decide, by decide, by decide, Or.inl rfl, Or.inl rfl⟩)
      ⟨_, List.Mem.head _, rfl, rfl⟩,
   (update_stored_or_missing Joi.digitsCoerce oneCourseStore sampleId sampleId
      scenarioCourse rfl rfl).2
      (fun h => Val.noConfusion h) (fun h => Val.noConfusion h)
      (fun entry hmem _ heq => by
        have h : entry = ("courses", Store.withId (.oid (hexOf 0))
           [("courseName", .str "Test Course"), ("courseCode", .str "TEST101"),
            ("credits", .num 3), ("department", .str "Computer Science"),
            ("description", .str "A test course"),
            ("prerequisites", .arr [.str "MATH101"])]) := List.mem_singleton.mp hmem
        rw [h] at heq
        have hhex : hexOf 0 = sampleId := Val.oid.inj heq
        exact absurd hhex (by decide))⟩

/-! ### Well-formed stores stay well-formed -/

theorem Store.withId_field (id : Val) (props : List (String × Val)) :
    (Store.withId id props).field "_id" = id := by
  simp [Store.withId, Val.field, List.lookup]

theorem Store.wellFormed_insertOne (s : Store) (c : String) (doc : Val)
    (hs : s.WellFormed) (hroom : s.nextId + 1 < 16 ^ 24) :
    (memory.insertOne c doc s).2.WellFormed := by
  cases doc
  case obj props =>
    refine ⟨hroom, ?_⟩
    intro entry hmem
    simp only [memory, List.mem_append, List.mem_singleton] at hmem
    rcases hmem with hmem | rfl
    · obtain ⟨k, hk, hfield⟩ := hs.2 entry hmem
      exact ⟨k, Nat.lt_succ_of_lt hk, hfield⟩
    · exact ⟨s.nextId, Nat.lt_succ_self _, Store.withId_field _ _⟩
  all_goals exact hs

theorem Store.replaceFirst_ids (c : String) (id : Val) (props : List (String × Val))
    (P : Val → Prop) (l out : List (String × Val))
    (hl : ∀ entry ∈ l, P (entry.2.field "_id"))
    (hout : Store.replaceFirst c id props l = some out) :
    ∀ entry ∈ out, P (entry.2.field "_id") := by
  induction l generalizing out with
  | nil => simp [Store.replaceFirst] at hout
  | cons first rest ih =>
    by_cases hsel : Store.selects c (some id) first = true
    · simp only [Store.replaceFirst, hsel, if_true, Option.some.injEq] at hout
      subst hout
      intro entry hmem
      rcases List.mem_cons.mp hmem with rfl | hmem
      · rw [Store.withId_field]
        exact hl first (List.mem_cons_self _ _)
      · exact hl entry (List.mem_cons_of_mem _ hmem)
    · simp only [Store.replaceFirst, hsel, Bool.false_eq_true, if_false, Option.map_eq_some'] at hout
      obtain ⟨tail, htail, rfl⟩ := hout
      intro entry hmem
      rcases List.mem_cons.mp hmem with rfl | hmem
      · exact hl entry (List.mem_cons_self _ _)
      · exact ih tail (fun e he => hl e (List.mem_cons_of_mem _ he)) htail entry hmem

theorem Store.removeFirst_subset (c : String) (id : Val) (l out : List (String × Val))
    (hout : Store.removeFirst c id l = some out) : ∀ entry ∈ out, entry ∈ l := by
  induction l generalizing out with
  | nil => simp [Store.removeFirst] at hout
  | cons first rest ih =>
    by_cases hsel : Store.selects c (some id) first = true
    · simp only [Store.removeFirst, hsel, if_true, Option.some.injEq] at hout
      subst hout
      exact fun entry hmem => List.mem_cons_of_mem _ hmem
    · simp only [Store.removeFirst, hsel, Bool.false_eq_true, if_false, Option.map_eq_some'] at hout
      obtain ⟨tail, htail, rfl⟩ := hout
      intro entry hmem
      rcases List.mem_cons.mp hmem with rfl | hmem
      · exact List.mem_cons_self _ _
      · exact List.mem_cons_of_mem _ (ih tail htail entry hmem)

theorem Store.wellFormed_replaceOne (s : Store) (c : String) (id doc : Val)
    (hs : s.WellFormed) : (memory.replaceOne c id doc s).2.WellFormed := by
  cases doc
  case obj props =>
    cases hrep : Store.replaceFirst c id props s.docs with
    | none => simpa [memory, hrep] using hs
    | some out =>
      simp only [memory, hrep]
      exact ⟨hs.1, Store.replaceFirst_ids c id props
        (fun v => ∃ k, k < s.nextId ∧ v = .oid (hexOf k)) s.docs out hs.2 hrep⟩
  all_goals exact hs

theorem Store.wellFormed_deleteOne (s : Store) (c : String) (id : Val)
    (hs : s.WellFormed) : (memory.deleteOne c id s).2.WellFormed := by
  cases hrem : Store.removeFirst c id s.docs with
  | none => simpa [memory, hrem] using hs
  | some out =>
    simp only [memory, hrem]
    exact ⟨hs.1, fun entry hmem => hs.2 entry (Store.removeFirst_subset c id s.docs out hrem
      entry hmem)⟩

theorem Store.wellFormed_empty : Store.empty.WellFormed :=
  ⟨by norm_num [Store.empty], fun _ hmem => by simp [Store.empty] at hmem⟩

end CourseApi
